import Mathlib

/-!
# Verification of the RegretMarket perpetual-trading core

Shallow embedding of `programs/regret_program/src` (lib.rs, state/position.rs,
state/trader.rs, state/vault.rs, state/config.rs, state/market.rs).

Machine integers (`u64`, `u128`) are modelled as `Nat` together with the
explicit bound checks that Rust's `checked_*` operations perform: a `u64`
value is a `Nat` that the program has checked to be `< 2^64`, and every
`checked_mul`/`checked_add`/`checked_sub`/`checked_div`/`try_from` of the
source becomes an `Option Nat` primitive that fails exactly when the Rust
operation would return `None`.  `saturating_sub` on unsigned integers is
Lean's truncated `Nat` subtraction.  Fallible Rust functions returning
`Result<T>` become `Except ErrorCode T`.
-/

namespace RegretMarket

/-! ## Constants (lib.rs lines 11-24) -/

def PRECISION : Nat := 1000000

def BASIS_POINTS : Nat := 10000

def MIN_COLLATERAL : Nat := 10000000

def MAX_COLLATERAL : Nat := 1000000000000

def MIN_POSITION_VALUE : Nat := 10000000

def MAX_POSITION_VALUE : Nat := 10000000000000

def U64_LIMIT : Nat := 2 ^ 64

def U128_LIMIT : Nat := 2 ^ 128

/-- Source: `MAX_SAFE_PRICE = u64::MAX / 200` (lib.rs line 20). -/
def MAX_SAFE_PRICE : Nat := (U64_LIMIT - 1) / 200

def SLOTS_PER_HOUR : Nat := 9000

def SLOTS_PER_8_HOURS : Nat := 72000

/-! ## Error codes (lib.rs lines 28-56) -/

inductive ErrorCode where
  | ProgramAlreadyStarted
  | ProgramPaused
  | Unauthorized
  | MathOverflow
  | NotEnoughBalance
  | InvalidInput
  | InvalidTargetPrice
  | FeeTooLow
  | InvalidPriceForShort
  | InvalidPriceForLong
  | InvalidPositionId
  | InvalidPositionSize
  | PositionValueTooHigh
  | PositionValueTooLow
  | CollateralTooLow
  | CollateralTooHigh
  | ExcessiveLeverage
  | PriceOverflow
  | PriceTooHigh
  | StalePrice
  | InvalidPrice
  | PriceConfidenceTooHigh
  | EffectiveCollateralTooLow
  | InsufficientCollateralForFees
  | InsufficientLiquidity
  | PositionAlreadyClosed
  deriving DecidableEq, Repr

/-! ## Checked-arithmetic primitives

Each mirrors the corresponding Rust `checked_*` method on the stated width.
-/

/-- Rust `u128::checked_mul`: `None` on overflow past `2^128`. -/
def checked_mul_u128 (a b : Nat) : Option Nat :=
  if a * b < U128_LIMIT then some (a * b) else none

/-- Rust `u64::checked_add`: `None` on overflow past `2^64`. -/
def checked_add_u64 (a b : Nat) : Option Nat :=
  if a + b < U64_LIMIT then some (a + b) else none

/-- Rust `checked_sub` on an unsigned width: `None` on underflow.  (The width
itself does not matter for subtraction of in-range operands.) -/
def checked_sub_nat (a b : Nat) : Option Nat :=
  if b ≤ a then some (a - b) else none

/-- Rust `checked_div` on an unsigned width: `None` exactly on division by zero. -/
def checked_div_nat (a b : Nat) : Option Nat :=
  if b = 0 then none else some (a / b)

/-- Rust `u64::try_from(x: u128)`: `None` when the value does not fit in 64 bits. -/
def u64_try_from (a : Nat) : Option Nat :=
  if a < U64_LIMIT then some a else none

/-- Rust's `Option::ok_or(e)?` on the above primitives. -/
def okOr {α : Type} (o : Option α) (e : ErrorCode) : Except ErrorCode α :=
  match o with
  | some v => Except.ok v
  | none => Except.error e

/-! ## Record types (state/config.rs, state/market.rs, state/vault.rs,
state/trader.rs, state/position.rs).  `Pubkey` is modelled as `Nat`. -/

structure Config where
  bump : Nat
  is_paused : Bool
  admin : Nat
  max_leverage : Nat
  liquidation_fee : Nat
  maintainance_margin : Nat
  opening_fee : Nat
  closing_fee : Nat
  privacy_fee : Nat
  protocol_fee_share : Nat
  last_updated : Nat
  deriving DecidableEq, Repr

structure Market where
  bump : Nat
  pair : String
  decimals : Nat
  feed_id : String
  total_active_positions : Nat
  is_paused : Bool
  deriving DecidableEq, Repr

structure Vault where
  bump : Nat
  is_paused : Bool
  token_mint : String
  lp_deposit : Nat
  total_lp_shares : Nat
  accumulated_lp_fees : Nat
  trader_deposit : Nat
  trader_collateral : Nat
  total_borrowed : Nat
  accumulated_fees : Nat
  accumulated_liquidation_rewards : Nat
  deriving DecidableEq, Repr

/-- Source `Vault::available_liquidity` (state/vault.rs): saturating subtraction. -/
def Vault.available_liquidity (v : Vault) : Nat :=
  v.lp_deposit - v.total_borrowed

structure Trader where
  owner : Nat
  bump : Nat
  privacy : Bool
  position_count : Nat
  active_position : Nat
  deriving DecidableEq, Repr

structure TraderPoolDetail where
  owner : Nat
  bump : Nat
  token_mint : String
  balance : Nat
  locked_balance : Nat
  deriving DecidableEq, Repr

/-- Source `TraderPoolDetail::available_balance` (state/trader.rs): saturating. -/
def TraderPoolDetail.available_balance (t : TraderPoolDetail) : Nat :=
  t.balance - t.locked_balance

structure Position where
  bump : Nat
  owner : Nat
  entered_at : Nat
  closed_at : Nat
  last_funding_slot : Nat
  cumulative_funding_paid : Nat
  position_id : Nat
  is_long : Bool
  pair : String
  token_mint : String
  current_target_price : Nat
  desired_size : Nat
  desired_entry_price : Nat
  actual_entered_price : Nat
  collateral : Nat
  actual_size : Nat
  current_price : Nat
  position_value : Nat
  leverage : Nat
  last_updated : Nat
  deriving DecidableEq, Repr

structure FundingPayment where
  funding_amount : Nat
  is_payment : Bool
  deriving DecidableEq, Repr

structure PositionParams where
  actual_size : Nat
  leverage_bps : Nat
  position_value : Nat
  target_price : Nat
  deriving DecidableEq, Repr

structure PnLResult where
  gross_pnl : Nat
  net_pnl : Nat
  is_profit : Bool
  deriving DecidableEq, Repr

/-! ## Validation layer (state/position.rs lines 714-769) -/

/-- Source `validate_position_value` (state/position.rs lines 714-726). -/
def validate_position_value (position_value : Nat) : Except ErrorCode Unit :=
  if ¬ (position_value ≥ MIN_POSITION_VALUE) then Except.error ErrorCode.PositionValueTooLow
  else if ¬ (position_value ≤ MAX_POSITION_VALUE) then Except.error ErrorCode.PositionValueTooHigh
  else Except.ok ()

/-- Source `validate_collateral` (state/position.rs lines 735-741). -/
def validate_collateral (collateral : Nat) : Except ErrorCode Unit :=
  if ¬ (collateral ≥ MIN_COLLATERAL) then Except.error ErrorCode.CollateralTooLow
  else if ¬ (collateral ≤ MAX_COLLATERAL) then Except.error ErrorCode.CollateralTooHigh
  else Except.ok ()

/-- Source `validate_price` (state/position.rs lines 750-756). -/
def validate_price (price : Nat) : Except ErrorCode Unit :=
  if ¬ (price > 0) then Except.error ErrorCode.InvalidPrice
  else if ¬ (price ≤ MAX_SAFE_PRICE) then Except.error ErrorCode.PriceTooHigh
  else Except.ok ()

/-- Source `validate_position_size` (state/position.rs lines 765-769). -/
def validate_position_size (size : Nat) : Except ErrorCode Unit :=
  if ¬ (size > 0) then Except.error ErrorCode.InvalidPositionSize
  else Except.ok ()

/-! ## Scaled fee computation

The source computes `amount * bps` fees with the identical five-step checked
chain in four places: the opening fee (lib.rs lines 231-243), the closing fee
(lib.rs lines 474-486), and the protocol share of each fee (lib.rs lines
337-349 and 489-501).  The chain is
`amount.checked_mul(bps)?.checked_mul(PRECISION)?.checked_div(BASIS_POINTS)?`
then `.checked_div(PRECISION)?` then `u64::try_from(..)?`. -/
def scaled_bps_fee (amount bps : Nat) : Except ErrorCode Nat :=
  match checked_mul_u128 amount bps with
  | none => Except.error ErrorCode.MathOverflow
  | some s1 =>
    match checked_mul_u128 s1 PRECISION with
    | none => Except.error ErrorCode.MathOverflow
    | some s2 =>
      match checked_div_nat s2 BASIS_POINTS with
      | none => Except.error ErrorCode.MathOverflow
      | some s3 =>
        match checked_div_nat s3 PRECISION with
        | none => Except.error ErrorCode.MathOverflow
        | some s4 =>
          match u64_try_from s4 with
          | none => Except.error ErrorCode.MathOverflow
          | some fee => Except.ok fee

/-- The protocol/LP split of a collected fee (lib.rs lines 337-353 at open,
identically lines 489-505 at close): `protocol_fee` by the scaled chain on
`protocol_fee_share`, then `lp_fee = fee.checked_sub(protocol_fee)?`. -/
def split_protocol_fee (fee protocol_fee_share : Nat) :
    Except ErrorCode (Nat × Nat) :=
  match scaled_bps_fee fee protocol_fee_share with
  | Except.error e => Except.error e
  | Except.ok protocol_fee =>
    match checked_sub_nat fee protocol_fee with
    | none => Except.error ErrorCode.MathOverflow
    | some lp_fee => Except.ok (protocol_fee, lp_fee)

/-- The derived target price at open (lib.rs lines 259-288):
`current_price * 110 / 100` for a long, `current_price * 90 / 100` for a
short, both via the scaled-multiply-then-divide chain. -/
def open_target_price (is_long : Bool) (current_price : Nat) :
    Except ErrorCode Nat :=
  if is_long then
    match checked_mul_u128 current_price 110 with
    | none => Except.error ErrorCode.MathOverflow
    | some s1 =>
      match checked_mul_u128 s1 PRECISION with
      | none => Except.error ErrorCode.MathOverflow
      | some s2 =>
        match checked_div_nat s2 100 with
        | none => Except.error ErrorCode.MathOverflow
        | some s3 =>
          match checked_div_nat s3 PRECISION with
          | none => Except.error ErrorCode.MathOverflow
          | some t =>
            match u64_try_from t with
            | none => Except.error ErrorCode.MathOverflow
            | some target => Except.ok target
  else
    match checked_mul_u128 current_price 90 with
    | none => Except.error ErrorCode.MathOverflow
    | some s1 =>
      match checked_mul_u128 s1 PRECISION with
      | none => Except.error ErrorCode.MathOverflow
      | some s2 =>
        match checked_div_nat s2 100 with
        | none => Except.error ErrorCode.MathOverflow
        | some s3 =>
          match checked_div_nat s3 PRECISION with
          | none => Except.error ErrorCode.MathOverflow
          | some t =>
            match u64_try_from t with
            | none => Except.error ErrorCode.MathOverflow
            | some target => Except.ok target

/-! ## Funding accrual (state/position.rs lines 111-173 and 37-70) -/

/-- Source `calculate_funding_payment` (state/position.rs lines 111-173).
`funding_rate_bps` is an `i64`; `unsigned_abs` is `Int.natAbs` and the Rust
comparison `funding_rate_bps > 0` is `decide (0 < funding_rate_bps)`. -/
def calculate_funding_payment (actual_size current_price : Nat)
    (funding_rate_bps : Int) (slots_elapsed token_decimals : Nat) :
    Except ErrorCode FundingPayment :=
  if actual_size = 0 ∨ current_price = 0 ∨ funding_rate_bps = 0 ∨ slots_elapsed = 0 then
    Except.ok { funding_amount := 0, is_payment := decide (0 < funding_rate_bps) }
  else
    match checked_mul_u128 actual_size current_price with
    | none => Except.error ErrorCode.MathOverflow
    | some n1 =>
      match checked_mul_u128 n1 PRECISION with
      | none => Except.error ErrorCode.MathOverflow
      | some n2 =>
        match checked_div_nat n2 (10 ^ token_decimals) with
        | none => Except.error ErrorCode.MathOverflow
        | some notional_value_scaled =>
          match checked_mul_u128 slots_elapsed PRECISION with
          | none => Except.error ErrorCode.MathOverflow
          | some p1 =>
            match checked_div_nat p1 SLOTS_PER_8_HOURS with
            | none => Except.error ErrorCode.MathOverflow
            | some funding_periods_scaled =>
              match checked_mul_u128 notional_value_scaled funding_rate_bps.natAbs with
              | none => Except.error ErrorCode.MathOverflow
              | some f1 =>
                match checked_mul_u128 f1 funding_periods_scaled with
                | none => Except.error ErrorCode.MathOverflow
                | some funding_amount_scaled =>
                  match checked_mul_u128 BASIS_POINTS PRECISION with
                  | none => Except.error ErrorCode.MathOverflow
                  | some d1 =>
                    match checked_mul_u128 d1 PRECISION with
                    | none => Except.error ErrorCode.MathOverflow
                    | some divisor =>
                      match checked_div_nat funding_amount_scaled divisor with
                      | none => Except.error ErrorCode.MathOverflow
                      | some a1 =>
                        match u64_try_from a1 with
                        | none => Except.error ErrorCode.MathOverflow
                        | some funding_amount =>
                          Except.ok { funding_amount,
                                      is_payment := decide (0 < funding_rate_bps) }

/-- Source `Position::update_funding` (state/position.rs lines 37-70).  The `&mut
self` mutation is modelled by returning the updated position alongside the
`FundingPayment`.  `slots_elapsed` uses `saturating_sub`. -/
def Position.update_funding (p : Position) (current_slot current_price : Nat)
    (funding_rate_bps : Int) (token_decimals : Nat) :
    Except ErrorCode (Position × FundingPayment) :=
  match calculate_funding_payment p.actual_size current_price funding_rate_bps
      (current_slot - p.last_funding_slot) token_decimals with
  | Except.error e => Except.error e
  | Except.ok funding =>
    if funding.is_payment then
      match checked_add_u64 p.cumulative_funding_paid funding.funding_amount with
      | none => Except.error ErrorCode.MathOverflow
      | some v =>
        Except.ok ({ p with last_funding_slot := current_slot,
                            cumulative_funding_paid := v }, funding)
    else
      Except.ok ({ p with last_funding_slot := current_slot,
                          cumulative_funding_paid :=
                            p.cumulative_funding_paid - funding.funding_amount },
                 funding)

/-! ## Position sizing (state/position.rs lines 198-388) -/

/-- Source `calculate_long_position` (state/position.rs lines 198-283). -/
def calculate_long_position (desired_entry_price desired_size current_price
    target_price collateral token_decimals : Nat) :
    Except ErrorCode PositionParams :=
  if ¬ (current_price > desired_entry_price) then Except.error ErrorCode.InvalidPriceForLong
  else if ¬ (target_price > current_price) then Except.error ErrorCode.InvalidTargetPrice
  else if desired_size = 0 ∨ collateral = 0 then Except.error ErrorCode.InvalidInput
  else
    match checked_sub_nat target_price desired_entry_price with
    | none => Except.error ErrorCode.MathOverflow
    | some target_profit_range =>
      match checked_sub_nat target_price current_price with
      | none => Except.error ErrorCode.MathOverflow
      | some price_movement =>
        if price_movement = 0 then Except.error ErrorCode.InvalidTargetPrice
        else
          match checked_mul_u128 desired_size target_profit_range with
          | none => Except.error ErrorCode.MathOverflow
          | some a1 =>
            match checked_mul_u128 a1 PRECISION with
            | none => Except.error ErrorCode.MathOverflow
            | some a2 =>
              match checked_div_nat a2 price_movement with
              | none => Except.error ErrorCode.MathOverflow
              | some actual_size_scaled =>
                match checked_div_nat actual_size_scaled PRECISION with
                | none => Except.error ErrorCode.MathOverflow
                | some a3 =>
                  match u64_try_from a3 with
                  | none => Except.error ErrorCode.MathOverflow
                  | some actual_size =>
                    match checked_mul_u128 actual_size current_price with
                    | none => Except.error ErrorCode.MathOverflow
                    | some v1 =>
                      match checked_mul_u128 v1 PRECISION with
                      | none => Except.error ErrorCode.MathOverflow
                      | some position_value_scaled =>
                        match checked_div_nat position_value_scaled (10 ^ token_decimals) with
                        | none => Except.error ErrorCode.MathOverflow
                        | some pv1 =>
                          match checked_div_nat pv1 PRECISION with
                          | none => Except.error ErrorCode.MathOverflow
                          | some pv2 =>
                            match u64_try_from pv2 with
                            | none => Except.error ErrorCode.MathOverflow
                            | some position_value =>
                              match checked_mul_u128 pv1 BASIS_POINTS with
                              | none => Except.error ErrorCode.MathOverflow
                              | some l1 =>
                                match checked_div_nat l1 collateral with
                                | none => Except.error ErrorCode.MathOverflow
                                | some l2 =>
                                  match checked_div_nat l2 PRECISION with
                                  | none => Except.error ErrorCode.MathOverflow
                                  | some l3 =>
                                    match u64_try_from l3 with
                                    | none => Except.error ErrorCode.MathOverflow
                                    | some leverage_bps =>
                                      Except.ok { actual_size, leverage_bps,
                                                  position_value, target_price }

/-- Source `calculate_short_position` (state/position.rs lines 301-388). -/
def calculate_short_position (desired_entry_price desired_size current_price
    target_price collateral token_decimals : Nat) :
    Except ErrorCode PositionParams :=
  if ¬ (current_price < desired_entry_price) then Except.error ErrorCode.InvalidPriceForShort
  else if ¬ (target_price < desired_entry_price) then Except.error ErrorCode.InvalidTargetPrice
  else if desired_size = 0 ∨ collateral = 0 then Except.error ErrorCode.InvalidInput
  else
    match checked_sub_nat desired_entry_price target_price with
    | none => Except.error ErrorCode.MathOverflow
    | some target_profit_range =>
      match checked_sub_nat current_price target_price with
      | none => Except.error ErrorCode.MathOverflow
      | some price_movement =>
        if price_movement = 0 then Except.error ErrorCode.InvalidTargetPrice
        else
          match checked_mul_u128 desired_size target_profit_range with
          | none => Except.error ErrorCode.MathOverflow
          | some a1 =>
            match checked_mul_u128 a1 PRECISION with
            | none => Except.error ErrorCode.MathOverflow
            | some a2 =>
              match checked_div_nat a2 price_movement with
              | none => Except.error ErrorCode.MathOverflow
              | some actual_size_scaled =>
                match checked_div_nat actual_size_scaled PRECISION with
                | none => Except.error ErrorCode.MathOverflow
                | some a3 =>
                  match u64_try_from a3 with
                  | none => Except.error ErrorCode.MathOverflow
                  | some actual_size =>
                    match checked_mul_u128 actual_size current_price with
                    | none => Except.error ErrorCode.MathOverflow
                    | some v1 =>
                      match checked_mul_u128 v1 PRECISION with
                      | none => Except.error ErrorCode.MathOverflow
                      | some position_value_scaled =>
                        match checked_div_nat position_value_scaled (10 ^ token_decimals) with
                        | none => Except.error ErrorCode.MathOverflow
                        | some pv1 =>
                          match checked_div_nat pv1 PRECISION with
                          | none => Except.error ErrorCode.MathOverflow
                          | some pv2 =>
                            match u64_try_from pv2 with
                            | none => Except.error ErrorCode.MathOverflow
                            | some position_value =>
                              match checked_mul_u128 pv1 BASIS_POINTS with
                              | none => Except.error ErrorCode.MathOverflow
                              | some l1 =>
                                match checked_div_nat l1 collateral with
                                | none => Except.error ErrorCode.MathOverflow
                                | some l2 =>
                                  match checked_div_nat l2 PRECISION with
                                  | none => Except.error ErrorCode.MathOverflow
                                  | some l3 =>
                                    match u64_try_from l3 with
                                    | none => Except.error ErrorCode.MathOverflow
                                    | some leverage_bps =>
                                      Except.ok { actual_size, leverage_bps,
                                                  position_value, target_price }

/-! ## PnL (state/position.rs lines 557-616) -/

/-- Source `calculate_pnl` (state/position.rs lines 557-616). -/
def calculate_pnl (position : Position) (current_price token_decimals : Nat) :
    Except ErrorCode PnLResult :=
  if position.actual_size = 0 then
    Except.ok { gross_pnl := 0, net_pnl := 0, is_profit := false }
  else
    match checked_mul_u128 position.actual_size current_price with
    | none => Except.error ErrorCode.MathOverflow
    | some c1 =>
      match checked_div_nat c1 (10 ^ token_decimals) with
      | none => Except.error ErrorCode.MathOverflow
      | some current_value =>
        match checked_mul_u128 position.actual_size position.actual_entered_price with
        | none => Except.error ErrorCode.MathOverflow
        | some e1 =>
          match checked_div_nat e1 (10 ^ token_decimals) with
          | none => Except.error ErrorCode.MathOverflow
          | some entry_value =>
            match (if position.is_long then
                    if current_value ≥ entry_value then (current_value - entry_value, true)
                    else (entry_value - current_value, false)
                  else
                    if entry_value ≥ current_value then (entry_value - current_value, true)
                    else (current_value - entry_value, false) : Nat × Bool) with
            | (gross_pnl_u128, is_profit) =>
              match u64_try_from gross_pnl_u128 with
              | none => Except.error ErrorCode.MathOverflow
              | some gross_pnl =>
                if is_profit then
                  Except.ok { gross_pnl,
                              net_pnl := gross_pnl - position.cumulative_funding_paid,
                              is_profit := decide (gross_pnl - position.cumulative_funding_paid > 0) }
                else
                  match checked_add_u64 gross_pnl position.cumulative_funding_paid with
                  | none => Except.error ErrorCode.MathOverflow
                  | some net_pnl =>
                    Except.ok { gross_pnl, net_pnl, is_profit := false }

/-! ## The instruction handlers (lib.rs `open_position` lines 186-428 and
`close_position` lines 439-592)

A Solana instruction either succeeds — committing the deserialized account
records it mutated — or returns an error, in which case the runtime aborts
the transaction and **no** account data is persisted.  The handlers are
therefore embedded as pure functions from the declared records to `Except
ErrorCode` of the full set of updated records; the commit semantics
(`commit_open` / `commit_close` below) keeps the original records on error.

The oracle read `get_normalized_price` (price_update.rs) and `Clock::get()`
are out-of-scope collaborators (spec §1, §6); their results enter as the
`current_price` and `slot` parameters, exactly as the handler consumes them.
-/

/-- The records an `open_position` / `close_position` call names. -/
structure State where
  config : Config
  pool : Vault
  market : Market
  trader : Trader
  trader_balance : TraderPoolDetail
  deriving DecidableEq, Repr

/-- The input gating of `open_position` (lib.rs lines 196-228): pause
flags, position-id check, input validation, balance check, and validation
of the oracle price. -/
def open_validate (s : State)
    (position_id desired_size desired_entry_price collateral current_price : Nat) :
    Except ErrorCode Unit :=
  if s.config.is_paused then Except.error ErrorCode.ProgramPaused
  else if s.market.is_paused then Except.error ErrorCode.ProgramPaused
  else if s.pool.is_paused then Except.error ErrorCode.ProgramPaused
  else if ¬ (position_id = s.trader.position_count) then Except.error ErrorCode.InvalidPositionId
  else
    match validate_collateral collateral with
    | Except.error e => Except.error e
    | Except.ok _ =>
      match validate_position_size desired_size with
      | Except.error e => Except.error e
      | Except.ok _ =>
        match validate_price desired_entry_price with
        | Except.error e => Except.error e
        | Except.ok _ =>
          if s.trader_balance.available_balance < collateral then
            Except.error ErrorCode.NotEnoughBalance
          else validate_price current_price

/-- Opening fee and effective collateral (lib.rs lines 230-257): the scaled
fee, the `FeeTooLow` floor, the checked subtraction, and the minimum on the
effective collateral. -/
def open_fee_and_collateral (collateral opening_fee_bps : Nat) :
    Except ErrorCode (Nat × Nat) :=
  match scaled_bps_fee collateral opening_fee_bps with
  | Except.error e => Except.error e
  | Except.ok opening_fee =>
    if ¬ (opening_fee > 0) then Except.error ErrorCode.FeeTooLow
    else
      match checked_sub_nat collateral opening_fee with
      | none => Except.error ErrorCode.InsufficientCollateralForFees
      | some effective_collateral =>
        if ¬ (effective_collateral ≥ MIN_COLLATERAL / 2) then
          Except.error ErrorCode.EffectiveCollateralTooLow
        else Except.ok (opening_fee, effective_collateral)

/-- Sizing and post-sizing validation (lib.rs lines 290-334): the long or
short sizing call, value/size re-validation, the leverage cap, the borrowed
amount, and the pool-liquidity check. -/
def open_sizing (s : State)
    (desired_entry_price desired_size current_price target_price
     effective_collateral : Nat) (is_long : Bool) :
    Except ErrorCode (PositionParams × Nat) :=
  match (if is_long then
          calculate_long_position desired_entry_price desired_size
            current_price target_price effective_collateral s.market.decimals
        else
          calculate_short_position desired_entry_price desired_size
            current_price target_price effective_collateral s.market.decimals) with
  | Except.error e => Except.error e
  | Except.ok params =>
    match validate_position_value params.position_value with
    | Except.error e => Except.error e
    | Except.ok _ =>
      match validate_position_size params.actual_size with
      | Except.error e => Except.error e
      | Except.ok _ =>
        if ¬ (params.leverage_bps ≤ s.config.max_leverage) then
          Except.error ErrorCode.ExcessiveLeverage
        else
          match checked_sub_nat params.position_value effective_collateral with
          | none => Except.error ErrorCode.MathOverflow
          | some borrowing_amount =>
            if s.pool.available_liquidity < borrowing_amount then
              Except.error ErrorCode.InsufficientLiquidity
            else Except.ok (params, borrowing_amount)

/-- The mutation block of `open_position` (lib.rs lines 355-427): the
checked updates of the pool, the trader balance, the counters, and the
`Position` record created by `set_inner` (lib.rs lines 389-411). -/
def open_apply (s : State) (owner : Nat) (token_mint pair : String)
    (position_id desired_size desired_entry_price : Nat) (is_long : Bool)
    (current_price slot opening_fee effective_collateral borrowing_amount
     protocol_fee lp_fee : Nat) (params : PositionParams) :
    Except ErrorCode (State × Position) :=
  match checked_add_u64 s.pool.accumulated_fees protocol_fee with
  | none => Except.error ErrorCode.MathOverflow
  | some acc_fees =>
    match checked_add_u64 s.pool.accumulated_lp_fees lp_fee with
    | none => Except.error ErrorCode.MathOverflow
    | some acc_lp_fees =>
      match checked_sub_nat s.trader_balance.balance opening_fee with
      | none => Except.error ErrorCode.MathOverflow
      | some new_balance =>
        match checked_add_u64 s.trader_balance.locked_balance effective_collateral with
        | none => Except.error ErrorCode.MathOverflow
        | some new_locked =>
          match checked_add_u64 s.pool.trader_collateral effective_collateral with
          | none => Except.error ErrorCode.MathOverflow
          | some new_trader_collateral =>
            match checked_add_u64 s.pool.total_borrowed borrowing_amount with
            | none => Except.error ErrorCode.MathOverflow
            | some new_total_borrowed =>
              match checked_add_u64 s.trader.position_count 1 with
              | none => Except.error ErrorCode.MathOverflow
              | some new_position_count =>
                match checked_add_u64 s.trader.active_position 1 with
                | none => Except.error ErrorCode.MathOverflow
                | some new_active_position =>
                  match checked_add_u64 s.market.total_active_positions 1 with
                  | none => Except.error ErrorCode.MathOverflow
                  | some new_market_active =>
                    Except.ok
                      ({ s with
                          pool := { s.pool with
                            accumulated_fees := acc_fees,
                            accumulated_lp_fees := acc_lp_fees,
                            trader_collateral := new_trader_collateral,
                            total_borrowed := new_total_borrowed },
                          trader_balance := { s.trader_balance with
                            balance := new_balance,
                            locked_balance := new_locked },
                          trader := { s.trader with
                            position_count := new_position_count,
                            active_position := new_active_position },
                          market := { s.market with
                            total_active_positions := new_market_active } },
                       { bump := 0, owner,
                         entered_at := slot, closed_at := 0,
                         last_funding_slot := slot,
                         cumulative_funding_paid := 0,
                         position_id, is_long, pair, token_mint,
                         current_target_price := params.target_price,
                         desired_size, desired_entry_price,
                         actual_entered_price := current_price,
                         collateral := effective_collateral,
                         actual_size := params.actual_size,
                         current_price,
                         position_value := params.position_value,
                         leverage := params.leverage_bps,
                         last_updated := slot })

/-- Source `open_position` (lib.rs lines 186-428), assembled from the stages above
in the exact source order. -/
def open_position (s : State) (owner : Nat) (token_mint pair : String)
    (position_id desired_size desired_entry_price collateral : Nat)
    (is_long : Bool) (current_price slot : Nat) :
    Except ErrorCode (State × Position) :=
  match open_validate s position_id desired_size desired_entry_price collateral
      current_price with
  | Except.error e => Except.error e
  | Except.ok _ =>
    match open_fee_and_collateral collateral s.config.opening_fee with
    | Except.error e => Except.error e
    | Except.ok (opening_fee, effective_collateral) =>
      match open_target_price is_long current_price with
      | Except.error e => Except.error e
      | Except.ok target_price =>
        match open_sizing s desired_entry_price desired_size current_price
            target_price effective_collateral is_long with
        | Except.error e => Except.error e
        | Except.ok (params, borrowing_amount) =>
          match split_protocol_fee opening_fee s.config.protocol_fee_share with
          | Except.error e => Except.error e
          | Except.ok (protocol_fee, lp_fee) =>
            open_apply s owner token_mint pair position_id desired_size
              desired_entry_price is_long current_price slot opening_fee
              effective_collateral borrowing_amount protocol_fee lp_fee params

/-- The payout computation of `close_position` (lib.rs lines 514-536):
profit pays `collateral + net_pnl.saturating_sub(closing_fee)` (checked add);
loss pays `collateral - (net_pnl + closing_fee)`, clamped to `0` when the
deduction reaches the collateral. -/
def close_amount_to_return (pnl : PnLResult) (collateral closing_fee : Nat) :
    Except ErrorCode Nat :=
  if pnl.is_profit then
    match checked_add_u64 collateral (pnl.net_pnl - closing_fee) with
    | none => Except.error ErrorCode.MathOverflow
    | some amount => Except.ok amount
  else
    match checked_add_u64 pnl.net_pnl closing_fee with
    | none => Except.error ErrorCode.MathOverflow
    | some total_deduction =>
      if total_deduction ≥ collateral then Except.ok 0
      else
        match checked_sub_nat collateral total_deduction with
        | none => Except.error ErrorCode.MathOverflow
        | some amount => Except.ok amount

/-- The input gating of `close_position` (lib.rs lines 453-464): the
already-closed check, the pause flags, and validation of the oracle price. -/
def close_validate (s : State) (position : Position) (current_price : Nat) :
    Except ErrorCode Unit :=
  if ¬ (position.closed_at = 0) then Except.error ErrorCode.PositionAlreadyClosed
  else if s.config.is_paused then Except.error ErrorCode.ProgramPaused
  else if s.market.is_paused then Except.error ErrorCode.ProgramPaused
  else if s.pool.is_paused then Except.error ErrorCode.ProgramPaused
  else validate_price current_price

/-- The mutation block of `close_position` (lib.rs lines 538-591): checked
pool / balance / counter updates and the terminal `closed_at` stamp.
`position` here is the position as already mutated by the funding update. -/
def close_apply (s : State) (position : Position)
    (slot borrowed_amount protocol_fee lp_fee amount_to_return : Nat) :
    Except ErrorCode (State × Position) :=
  match checked_sub_nat s.pool.total_borrowed borrowed_amount with
  | none => Except.error ErrorCode.MathOverflow
  | some new_total_borrowed =>
    match checked_sub_nat s.pool.trader_collateral position.collateral with
    | none => Except.error ErrorCode.MathOverflow
    | some new_trader_collateral =>
      match checked_add_u64 s.pool.accumulated_fees protocol_fee with
      | none => Except.error ErrorCode.MathOverflow
      | some acc_fees =>
        match checked_add_u64 s.pool.accumulated_lp_fees lp_fee with
        | none => Except.error ErrorCode.MathOverflow
        | some acc_lp_fees =>
          match checked_sub_nat s.trader_balance.locked_balance position.collateral with
          | none => Except.error ErrorCode.MathOverflow
          | some new_locked =>
            match checked_add_u64 s.trader_balance.balance amount_to_return with
            | none => Except.error ErrorCode.MathOverflow
            | some new_balance =>
              match checked_sub_nat s.trader.active_position 1 with
              | none => Except.error ErrorCode.MathOverflow
              | some new_active_position =>
                match checked_sub_nat s.market.total_active_positions 1 with
                | none => Except.error ErrorCode.MathOverflow
                | some new_market_active =>
                  Except.ok
                    ({ s with
                        pool := { s.pool with
                          total_borrowed := new_total_borrowed,
                          trader_collateral := new_trader_collateral,
                          accumulated_fees := acc_fees,
                          accumulated_lp_fees := acc_lp_fees },
                        trader_balance := { s.trader_balance with
                          locked_balance := new_locked,
                          balance := new_balance },
                        trader := { s.trader with
                          active_position := new_active_position },
                        market := { s.market with
                          total_active_positions := new_market_active } },
                     { position with closed_at := slot })

/-- Source `close_position` (lib.rs lines 439-592), assembled from the stages in
the exact source order.  The funding rate is the hardcoded `10i64` of
lib.rs line 467 (`// TODO: Get from oracle`). -/
def close_position (s : State) (position : Position)
    (current_price slot : Nat) : Except ErrorCode (State × Position) :=
  match close_validate s position current_price with
  | Except.error e => Except.error e
  | Except.ok _ =>
    match position.update_funding slot current_price 10 s.market.decimals with
    | Except.error e => Except.error e
    | Except.ok (position, _funding) =>
      match calculate_pnl position current_price s.market.decimals with
      | Except.error e => Except.error e
      | Except.ok pnl_result =>
        match scaled_bps_fee position.position_value s.config.closing_fee with
        | Except.error e => Except.error e
        | Except.ok closing_fee =>
          match split_protocol_fee closing_fee s.config.protocol_fee_share with
          | Except.error e => Except.error e
          | Except.ok (protocol_fee, lp_fee) =>
            match checked_sub_nat position.position_value position.collateral with
            | none => Except.error ErrorCode.MathOverflow
            | some borrowed_amount =>
              match close_amount_to_return pnl_result position.collateral closing_fee with
              | Except.error e => Except.error e
              | Except.ok amount_to_return =>
                close_apply s position slot borrowed_amount protocol_fee
                  lp_fee amount_to_return

/-- Transaction-commit semantics of `open_position`: the Solana runtime
persists the mutated records only when the handler returns `Ok`; any error
aborts the transaction and every record keeps its pre-call contents. -/
def commit_open (s : State) (owner : Nat) (token_mint pair : String)
    (position_id desired_size desired_entry_price collateral : Nat)
    (is_long : Bool) (current_price slot : Nat) : State :=
  match open_position s owner token_mint pair position_id desired_size
      desired_entry_price collateral is_long current_price slot with
  | Except.ok r => r.1
  | Except.error _ => s

/-- Transaction-commit semantics of `close_position`: on error the records
and the position keep their pre-call contents. -/
def commit_close (s : State) (position : Position)
    (current_price slot : Nat) : State × Position :=
  match close_position s position current_price slot with
  | Except.ok r => r
  | Except.error _ => (s, position)

/-! ## Concrete records used to exercise the theorems -/

/-- A plausible configuration: 1% opening and closing fee, 50% protocol
share, max leverage 100x. -/
def demo_config : Config :=
  { bump := 0, is_paused := false, admin := 0, max_leverage := 1000000,
    liquidation_fee := 0, maintainance_margin := 500, opening_fee := 100,
    closing_fee := 100, privacy_fee := 0, protocol_fee_share := 5000,
    last_updated := 0 }

/-- Fresh records as `register` / `create_pool` / `open_market` build them
(lib.rs lines 90-166): trader balance 100000 USD, pool 100M USD, a
6-decimals market. -/
def demo_state : State :=
  { config := demo_config,
    pool := { bump := 0, is_paused := false, token_mint := "", lp_deposit := 100000000000000,
              total_lp_shares := 0, accumulated_lp_fees := 0, trader_deposit := 0,
              trader_collateral := 0, total_borrowed := 0, accumulated_fees := 0,
              accumulated_liquidation_rewards := 0 },
    market := { bump := 0, pair := "", decimals := 6, feed_id := "",
                total_active_positions := 0, is_paused := false },
    trader := { owner := 7, bump := 0, privacy := false, position_count := 0,
                active_position := 0 },
    trader_balance := { owner := 7, bump := 0, token_mint := "", balance := 100000000000,
                        locked_balance := 0 } }

/-- State `demo_state` with a paused configuration: every mutating operation must
reject it with `ProgramPaused`. -/
def paused_state : State :=
  { demo_state with config := { demo_config with is_paused := true } }

/-- A state whose (unvalidated `u16`) closing fee of 65535 bps makes the
closing-fee `u64::try_from` overflow on a maximal `position_value`. -/
def overflow_close_state : State :=
  { demo_state with config := { demo_config with closing_fee := 65535 } }

/-- An open position with maximal `position_value`: closing it under
`overflow_close_state` fails with `MathOverflow` strictly after the funding
update has run. -/
def overflow_position : Position :=
  { bump := 0, owner := 7, entered_at := 1, closed_at := 0, last_funding_slot := 5,
    cumulative_funding_paid := 0, position_id := 0, is_long := true, pair := "",
    token_mint := "", current_target_price := 1, desired_size := 1,
    desired_entry_price := 1, actual_entered_price := 1, collateral := 0,
    actual_size := 0, current_price := 1, position_value := 18446744073709551615,
    leverage := 1, last_updated := 1 }

/-- The state produced by the successful demo open
(`open_position demo_state 7 "" "" 0 10000000 49000000 100000000 true
50000000 3`): a $100-collateral long of 10 tokens desired at $49, sized at
the $50 oracle price. -/
def demo_open_state : State :=
  { config := demo_config,
    pool := { bump := 0, is_paused := false, token_mint := "", lp_deposit := 100000000000000,
              total_lp_shares := 0, accumulated_lp_fees := 500000, trader_deposit := 0,
              trader_collateral := 99000000, total_borrowed := 501000000,
              accumulated_fees := 500000, accumulated_liquidation_rewards := 0 },
    market := { bump := 0, pair := "", decimals := 6, feed_id := "",
                total_active_positions := 1, is_paused := false },
    trader := { owner := 7, bump := 0, privacy := false, position_count := 1,
                active_position := 1 },
    trader_balance := { owner := 7, bump := 0, token_mint := "", balance := 99999000000,
                        locked_balance := 99000000 } }

/-- The position created by the successful demo open. -/
def demo_open_position : Position :=
  { bump := 0, owner := 7, entered_at := 3, closed_at := 0, last_funding_slot := 3,
    cumulative_funding_paid := 0, position_id := 0, is_long := true, pair := "",
    token_mint := "", current_target_price := 55000000, desired_size := 10000000,
    desired_entry_price := 49000000, actual_entered_price := 50000000,
    collateral := 99000000, actual_size := 12000000, current_price := 50000000,
    position_value := 600000000, leverage := 60606, last_updated := 3 }

/-- The state after closing the demo position (at the unchanged $50 price):
closing fee 6000000, payout 93000000, all collateral released. -/
def demo_close_state : State :=
  { config := demo_config,
    pool := { bump := 0, is_paused := false, token_mint := "", lp_deposit := 100000000000000,
              total_lp_shares := 0, accumulated_lp_fees := 3500000, trader_deposit := 0,
              trader_collateral := 0, total_borrowed := 0,
              accumulated_fees := 3500000, accumulated_liquidation_rewards := 0 },
    market := { bump := 0, pair := "", decimals := 6, feed_id := "",
                total_active_positions := 0, is_paused := false },
    trader := { owner := 7, bump := 0, privacy := false, position_count := 1,
                active_position := 0 },
    trader_balance := { owner := 7, bump := 0, token_mint := "", balance := 100092000000,
                        locked_balance := 0 } }

/-- The demo position closed in the same slot it was opened (slot 3). -/
def demo_roundtrip_position : Position :=
  { demo_open_position with closed_at := 3 }

/-- The demo position closed one full funding period later (slot 72003):
the hardcoded +10 bps rate accrues 600000 into
`cumulative_funding_paid`. -/
def demo_late_close_position : Position :=
  { demo_open_position with
    closed_at := 72003, last_funding_slot := 72003,
    cumulative_funding_paid := 600000 }

/-- A position used to exercise funding accrual in isolation: 1 token held
over exactly one 8-hour funding period with 5 units of funding already
paid. -/
def funding_position : Position :=
  { bump := 0, owner := 7, entered_at := 0, closed_at := 0, last_funding_slot := 0,
    cumulative_funding_paid := 5, position_id := 0, is_long := true, pair := "",
    token_mint := "", current_target_price := 1, desired_size := 1,
    desired_entry_price := 1, actual_entered_price := 1, collateral := 1,
    actual_size := 1000000, current_price := 1, position_value := 1,
    leverage := 1, last_updated := 0 }

/-- A position whose funding watermark (slot 100) is ahead of the clock. -/
def backdated_position : Position :=
  { funding_position with last_funding_slot := 100, cumulative_funding_paid := 0 }

/-! ## Inversion lemmas for the checked primitives -/

theorem checked_mul_u128_eq_some {a b v : Nat} :
    checked_mul_u128 a b = some v ↔ a * b < U128_LIMIT ∧ a * b = v := by
  unfold checked_mul_u128
  split <;> rename_i h <;> simp [h]

theorem checked_add_u64_eq_some {a b v : Nat} :
    checked_add_u64 a b = some v ↔ a + b < U64_LIMIT ∧ a + b = v := by
  unfold checked_add_u64
  split <;> rename_i h <;> simp [h]

theorem checked_sub_nat_eq_some {a b v : Nat} :
    checked_sub_nat a b = some v ↔ b ≤ a ∧ a - b = v := by
  unfold checked_sub_nat
  split <;> rename_i h <;> simp [h]

theorem checked_div_nat_eq_some {a b v : Nat} :
    checked_div_nat a b = some v ↔ b ≠ 0 ∧ a / b = v := by
  unfold checked_div_nat
  split <;> rename_i h <;> simp [h]

theorem u64_try_from_eq_some {a v : Nat} :
    u64_try_from a = some v ↔ a < U64_LIMIT ∧ a = v := by
  unfold u64_try_from
  split <;> rename_i h <;> simp [h]

/-- The ubiquitous scaled-multiply-then-divide pattern: multiplying by
`PRECISION` before a truncated division and dividing it out afterwards is
the plain truncated division. -/
theorem prec_div_div (x c : Nat) : x * PRECISION / c / PRECISION = x / c := by
  rw [Nat.div_div_eq_div_mul, Nat.mul_comm c PRECISION, ← Nat.div_div_eq_div_mul,
    Nat.mul_div_cancel x (by norm_num [PRECISION])]

/-! ## Inversion lemmas for the validation layer -/

theorem validate_collateral_ok {c : Nat} {u : Unit}
    (h : validate_collateral c = Except.ok u) :
    MIN_COLLATERAL ≤ c ∧ c ≤ MAX_COLLATERAL := by
  unfold validate_collateral at h
  split at h
  · exact Except.noConfusion h
  split at h
  · exact Except.noConfusion h
  rename_i h1 h2
  rw [not_not] at h1 h2
  exact ⟨h1, h2⟩

theorem validate_position_size_ok {s : Nat} {u : Unit}
    (h : validate_position_size s = Except.ok u) : 0 < s := by
  unfold validate_position_size at h
  split at h
  · exact Except.noConfusion h
  rename_i h1
  rw [not_not] at h1
  exact h1

theorem validate_price_ok {p : Nat} {u : Unit}
    (h : validate_price p = Except.ok u) : 0 < p ∧ p ≤ MAX_SAFE_PRICE := by
  unfold validate_price at h
  split at h
  · exact Except.noConfusion h
  split at h
  · exact Except.noConfusion h
  rename_i h1 h2
  rw [not_not] at h1 h2
  exact ⟨h1, h2⟩

theorem validate_position_value_ok {v : Nat} {u : Unit}
    (h : validate_position_value v = Except.ok u) :
    MIN_POSITION_VALUE ≤ v ∧ v ≤ MAX_POSITION_VALUE := by
  unfold validate_position_value at h
  split at h
  · exact Except.noConfusion h
  split at h
  · exact Except.noConfusion h
  rename_i h1 h2
  rw [not_not] at h1 h2
  exact ⟨h1, h2⟩

/-! ## Inversion lemmas for the fee chains -/

theorem scaled_bps_fee_ok {amount bps fee : Nat}
    (h : scaled_bps_fee amount bps = Except.ok fee) :
    fee = amount * bps / BASIS_POINTS ∧ amount * bps < U128_LIMIT ∧
      amount * bps * PRECISION < U128_LIMIT ∧ fee < U64_LIMIT := by
  unfold scaled_bps_fee at h
  split at h <;> try exact Except.noConfusion h
  rename_i s1 h1
  split at h <;> try exact Except.noConfusion h
  rename_i s2 h2
  split at h <;> try exact Except.noConfusion h
  rename_i s3 h3
  split at h <;> try exact Except.noConfusion h
  rename_i s4 h4
  split at h <;> try exact Except.noConfusion h
  rename_i s5 h5
  obtain ⟨hb1, rfl⟩ := checked_mul_u128_eq_some.mp h1
  obtain ⟨hb2, rfl⟩ := checked_mul_u128_eq_some.mp h2
  obtain ⟨-, rfl⟩ := checked_div_nat_eq_some.mp h3
  obtain ⟨-, rfl⟩ := checked_div_nat_eq_some.mp h4
  obtain ⟨hb5, rfl⟩ := u64_try_from_eq_some.mp h5
  cases h
  exact ⟨prec_div_div _ _, hb1, hb2, hb5⟩

theorem split_protocol_fee_ok {fee share pf lf : Nat}
    (h : split_protocol_fee fee share = Except.ok (pf, lf)) :
    pf = fee * share / BASIS_POINTS ∧ pf ≤ fee ∧ lf = fee - pf := by
  unfold split_protocol_fee at h
  split at h <;> try exact Except.noConfusion h
  rename_i pf0 h1
  split at h <;> try exact Except.noConfusion h
  rename_i lf0 h2
  obtain ⟨hval, -, -, -⟩ := scaled_bps_fee_ok h1
  obtain ⟨hle, hsub⟩ := checked_sub_nat_eq_some.mp h2
  cases h
  exact ⟨hval, hle, hsub.symm⟩

theorem open_target_price_long_ok {c t : Nat}
    (h : open_target_price true c = Except.ok t) : t = c * 110 / 100 := by
  unfold open_target_price at h
  simp only [if_pos] at h
  split at h <;> try exact Except.noConfusion h
  rename_i s1 h1
  split at h <;> try exact Except.noConfusion h
  rename_i s2 h2
  split at h <;> try exact Except.noConfusion h
  rename_i s3 h3
  split at h <;> try exact Except.noConfusion h
  rename_i s4 h4
  split at h <;> try exact Except.noConfusion h
  rename_i s5 h5
  obtain ⟨-, rfl⟩ := checked_mul_u128_eq_some.mp h1
  obtain ⟨-, rfl⟩ := checked_mul_u128_eq_some.mp h2
  obtain ⟨-, rfl⟩ := checked_div_nat_eq_some.mp h3
  obtain ⟨-, rfl⟩ := checked_div_nat_eq_some.mp h4
  obtain ⟨-, rfl⟩ := u64_try_from_eq_some.mp h5
  cases h
  exact prec_div_div _ _

theorem open_target_price_short_ok {c t : Nat}
    (h : open_target_price false c = Except.ok t) : t = c * 90 / 100 := by
  unfold open_target_price at h
  simp only [Bool.false_eq_true, if_false] at h
  split at h <;> try exact Except.noConfusion h
  rename_i s1 h1
  split at h <;> try exact Except.noConfusion h
  rename_i s2 h2
  split at h <;> try exact Except.noConfusion h
  rename_i s3 h3
  split at h <;> try exact Except.noConfusion h
  rename_i s4 h4
  split at h <;> try exact Except.noConfusion h
  rename_i s5 h5
  obtain ⟨-, rfl⟩ := checked_mul_u128_eq_some.mp h1
  obtain ⟨-, rfl⟩ := checked_mul_u128_eq_some.mp h2
  obtain ⟨-, rfl⟩ := checked_div_nat_eq_some.mp h3
  obtain ⟨-, rfl⟩ := checked_div_nat_eq_some.mp h4
  obtain ⟨-, rfl⟩ := u64_try_from_eq_some.mp h5
  cases h
  exact prec_div_div _ _

/-! ## Inversion lemmas for position sizing -/

theorem calculate_long_position_ok {e d c t coll dec : Nat} {params : PositionParams}
    (h : calculate_long_position e d c t coll dec = Except.ok params) :
    e < c ∧ c < t ∧ d ≠ 0 ∧ coll ≠ 0 ∧
      params.actual_size = d * (t - e) / (t - c) ∧
      params.actual_size < U64_LIMIT ∧
      params.position_value = params.actual_size * c / 10 ^ dec ∧
      params.position_value < U64_LIMIT ∧
      params.target_price = t := by
  unfold calculate_long_position at h
  split at h
  · exact Except.noConfusion h
  split at h
  · exact Except.noConfusion h
  split at h
  · exact Except.noConfusion h
  rename_i hce hct hdz
  rw [not_not] at hce hct
  rw [not_or] at hdz
  split at h <;> try exact Except.noConfusion h
  rename_i s1 h1
  split at h <;> try exact Except.noConfusion h
  rename_i s2 h2
  split at h
  · exact Except.noConfusion h
  rename_i hpm
  split at h <;> try exact Except.noConfusion h
  rename_i s3 h3
  split at h <;> try exact Except.noConfusion h
  rename_i s4 h4
  split at h <;> try exact Except.noConfusion h
  rename_i s5 h5
  split at h <;> try exact Except.noConfusion h
  rename_i s6 h6
  split at h <;> try exact Except.noConfusion h
  rename_i s7 h7
  split at h <;> try exact Except.noConfusion h
  rename_i s8 h8
  split at h <;> try exact Except.noConfusion h
  rename_i s9 h9
  split at h <;> try exact Except.noConfusion h
  rename_i s10 h10
  split at h <;> try exact Except.noConfusion h
  rename_i s11 h11
  split at h <;> try exact Except.noConfusion h
  rename_i s12 h12
  split at h <;> try exact Except.noConfusion h
  rename_i s13 h13
  split at h <;> try exact Except.noConfusion h
  rename_i s14 h14
  split at h <;> try exact Except.noConfusion h
  rename_i s15 h15
  split at h <;> try exact Except.noConfusion h
  rename_i s16 h16
  obtain ⟨-, rfl⟩ := checked_sub_nat_eq_some.mp h1
  obtain ⟨-, rfl⟩ := checked_sub_nat_eq_some.mp h2
  obtain ⟨-, rfl⟩ := checked_mul_u128_eq_some.mp h3
  obtain ⟨-, rfl⟩ := checked_mul_u128_eq_some.mp h4
  obtain ⟨-, rfl⟩ := checked_div_nat_eq_some.mp h5
  obtain ⟨-, rfl⟩ := checked_div_nat_eq_some.mp h6
  obtain ⟨hu1, rfl⟩ := u64_try_from_eq_some.mp h7
  obtain ⟨-, rfl⟩ := checked_mul_u128_eq_some.mp h8
  obtain ⟨-, rfl⟩ := checked_mul_u128_eq_some.mp h9
  obtain ⟨-, rfl⟩ := checked_div_nat_eq_some.mp h10
  obtain ⟨-, rfl⟩ := checked_div_nat_eq_some.mp h11
  obtain ⟨hu2, rfl⟩ := u64_try_from_eq_some.mp h12
  cases h
  refine ⟨hce, hct, hdz.1, hdz.2, ?_, ?_, ?_, ?_, rfl⟩ <;>
    simp only [prec_div_div] at hu1 hu2 ⊢
  · exact hu1
  · exact hu2

theorem calculate_short_position_ok {e d c t coll dec : Nat} {params : PositionParams}
    (h : calculate_short_position e d c t coll dec = Except.ok params) :
    c < e ∧ t < c ∧ d ≠ 0 ∧ coll ≠ 0 ∧
      params.actual_size = d * (e - t) / (c - t) ∧
      params.actual_size < U64_LIMIT ∧
      params.position_value = params.actual_size * c / 10 ^ dec ∧
      params.position_value < U64_LIMIT ∧
      params.target_price = t := by
  unfold calculate_short_position at h
  split at h
  · exact Except.noConfusion h
  split at h
  · exact Except.noConfusion h
  split at h
  · exact Except.noConfusion h
  rename_i hce hte hdz
  rw [not_not] at hce hte
  rw [not_or] at hdz
  split at h <;> try exact Except.noConfusion h
  rename_i s1 h1
  split at h <;> try exact Except.noConfusion h
  rename_i s2 h2
  split at h
  · exact Except.noConfusion h
  rename_i hpm
  split at h <;> try exact Except.noConfusion h
  rename_i s3 h3
  split at h <;> try exact Except.noConfusion h
  rename_i s4 h4
  split at h <;> try exact Except.noConfusion h
  rename_i s5 h5
  split at h <;> try exact Except.noConfusion h
  rename_i s6 h6
  split at h <;> try exact Except.noConfusion h
  rename_i s7 h7
  split at h <;> try exact Except.noConfusion h
  rename_i s8 h8
  split at h <;> try exact Except.noConfusion h
  rename_i s9 h9
  split at h <;> try exact Except.noConfusion h
  rename_i s10 h10
  split at h <;> try exact Except.noConfusion h
  rename_i s11 h11
  split at h <;> try exact Except.noConfusion h
  rename_i s12 h12
  split at h <;> try exact Except.noConfusion h
  rename_i s13 h13
  split at h <;> try exact Except.noConfusion h
  rename_i s14 h14
  split at h <;> try exact Except.noConfusion h
  rename_i s15 h15
  split at h <;> try exact Except.noConfusion h
  rename_i s16 h16
  obtain ⟨hsub2, rfl⟩ := checked_sub_nat_eq_some.mp h2
  obtain ⟨-, rfl⟩ := checked_sub_nat_eq_some.mp h1
  obtain ⟨-, rfl⟩ := checked_mul_u128_eq_some.mp h3
  obtain ⟨-, rfl⟩ := checked_mul_u128_eq_some.mp h4
  obtain ⟨-, rfl⟩ := checked_div_nat_eq_some.mp h5
  obtain ⟨-, rfl⟩ := checked_div_nat_eq_some.mp h6
  obtain ⟨hu1, rfl⟩ := u64_try_from_eq_some.mp h7
  obtain ⟨-, rfl⟩ := checked_mul_u128_eq_some.mp h8
  obtain ⟨-, rfl⟩ := checked_mul_u128_eq_some.mp h9
  obtain ⟨-, rfl⟩ := checked_div_nat_eq_some.mp h10
  obtain ⟨-, rfl⟩ := checked_div_nat_eq_some.mp h11
  obtain ⟨hu2, rfl⟩ := u64_try_from_eq_some.mp h12
  cases h
  refine ⟨hce, ?_, hdz.1, hdz.2, ?_, ?_, ?_, ?_, rfl⟩
  · omega
  all_goals simp only [prec_div_div] at hu1 hu2 ⊢
  · exact hu1
  · exact hu2

/-! ## Inversion lemmas for funding -/

/-- The zero short-circuit of `calculate_funding_payment` (state/position.rs
lines 119-124). -/
theorem calculate_funding_payment_zero {s p : Nat} {r : Int} {el d : Nat}
    (h : s = 0 ∨ p = 0 ∨ r = 0 ∨ el = 0) :
    calculate_funding_payment s p r el d =
      Except.ok { funding_amount := 0, is_payment := decide (0 < r) } := by
  unfold calculate_funding_payment
  rw [if_pos h]

theorem calculate_funding_payment_ok {s p : Nat} {r : Int} {el d : Nat}
    {f : FundingPayment}
    (h : calculate_funding_payment s p r el d = Except.ok f) :
    f.is_payment = decide (0 < r) ∧
      (s ≠ 0 → p ≠ 0 → r ≠ 0 → el ≠ 0 →
        f.funding_amount =
          s * p * PRECISION / 10 ^ d * r.natAbs *
            (el * PRECISION / SLOTS_PER_8_HOURS) /
            (BASIS_POINTS * PRECISION * PRECISION)) := by
  unfold calculate_funding_payment at h
  split at h
  · rename_i hz
    cases h
    exact ⟨rfl, by tauto⟩
  rename_i hz
  split at h <;> try exact Except.noConfusion h
  rename_i n1 h1
  split at h <;> try exact Except.noConfusion h
  rename_i n2 h2
  split at h <;> try exact Except.noConfusion h
  rename_i n3 h3
  split at h <;> try exact Except.noConfusion h
  rename_i p1 h4
  split at h <;> try exact Except.noConfusion h
  rename_i p2 h5
  split at h <;> try exact Except.noConfusion h
  rename_i f1 h6
  split at h <;> try exact Except.noConfusion h
  rename_i f2 h7
  split at h <;> try exact Except.noConfusion h
  rename_i d1 h8
  split at h <;> try exact Except.noConfusion h
  rename_i d2 h9
  split at h <;> try exact Except.noConfusion h
  rename_i a1 h10
  split at h <;> try exact Except.noConfusion h
  rename_i a2 h11
  obtain ⟨-, rfl⟩ := checked_mul_u128_eq_some.mp h1
  obtain ⟨-, rfl⟩ := checked_mul_u128_eq_some.mp h2
  obtain ⟨-, rfl⟩ := checked_div_nat_eq_some.mp h3
  obtain ⟨-, rfl⟩ := checked_mul_u128_eq_some.mp h4
  obtain ⟨-, rfl⟩ := checked_div_nat_eq_some.mp h5
  obtain ⟨-, rfl⟩ := checked_mul_u128_eq_some.mp h6
  obtain ⟨-, rfl⟩ := checked_mul_u128_eq_some.mp h7
  obtain ⟨-, rfl⟩ := checked_mul_u128_eq_some.mp h8
  obtain ⟨-, rfl⟩ := checked_mul_u128_eq_some.mp h9
  obtain ⟨-, rfl⟩ := checked_div_nat_eq_some.mp h10
  obtain ⟨-, rfl⟩ := u64_try_from_eq_some.mp h11
  cases h
  exact ⟨rfl, fun _ _ _ _ => rfl⟩

/-- Inversion for `Position::update_funding` (state/position.rs lines
37-70): on success the watermark is the supplied slot, and
`cumulative_funding_paid` moves by the funding amount in the direction of
the payment flag (checked add / saturating sub). -/
theorem update_funding_ok {pos : Position} {slot price : Nat} {r : Int}
    {d : Nat} {pos' : Position} {f : FundingPayment}
    (h : pos.update_funding slot price r d = Except.ok (pos', f)) :
    calculate_funding_payment pos.actual_size price r
        (slot - pos.last_funding_slot) d = Except.ok f ∧
      (f.is_payment = true →
        pos.cumulative_funding_paid + f.funding_amount < U64_LIMIT ∧
        pos' = { pos with
                 last_funding_slot := slot,
                 cumulative_funding_paid :=
                   pos.cumulative_funding_paid + f.funding_amount }) ∧
      (f.is_payment = false →
        pos' = { pos with
                 last_funding_slot := slot,
                 cumulative_funding_paid :=
                   pos.cumulative_funding_paid - f.funding_amount }) := by
  unfold Position.update_funding at h
  split at h <;> try exact Except.noConfusion h
  rename_i funding hcalc
  split at h
  · rename_i hpay
    split at h <;> try exact Except.noConfusion h
    rename_i v hv
    obtain ⟨hlt, rfl⟩ := checked_add_u64_eq_some.mp hv
    cases h
    exact ⟨hcalc, fun _ => ⟨hlt, rfl⟩, fun hc => absurd hpay (by simp [hc])⟩
  · rename_i hpay
    cases h
    rw [Bool.not_eq_true] at hpay
    exact ⟨hcalc, fun hc => absurd hc (by simp [hpay]), fun _ => rfl⟩

/-- Elapsed-zero special case of `update_funding`: when the supplied slot is
at or before the stored watermark, `saturating_sub` yields zero elapsed
slots, the payment is zero, and the watermark is still overwritten. -/
theorem update_funding_stale {pos : Position} {slot price : Nat} {r : Int}
    {d : Nat} (hslot : slot ≤ pos.last_funding_slot)
    (hcum : pos.cumulative_funding_paid < U64_LIMIT) :
    pos.update_funding slot price r d =
      Except.ok ({ pos with last_funding_slot := slot },
                 { funding_amount := 0, is_payment := decide (0 < r) }) := by
  unfold Position.update_funding
  have hel : slot - pos.last_funding_slot = 0 := by omega
  rw [hel, calculate_funding_payment_zero (by simp)]
  by_cases hr : 0 < r
  · simp [hr, checked_add_u64, hcum]
  · simp [hr]

/-! ## Inversion lemmas for PnL -/

/-- Running `calculate_pnl` on a position being closed at exactly its entry price
with no accumulated funding: zero PnL, reported as non-profit. -/
theorem calculate_pnl_flat {pos : Position} {price d : Nat} {r : PnLResult}
    (hentry : pos.actual_entered_price = price)
    (hcum : pos.cumulative_funding_paid = 0)
    (h : calculate_pnl pos price d = Except.ok r) :
    r = { gross_pnl := 0, net_pnl := 0, is_profit := false } := by
  unfold calculate_pnl at h
  split at h
  · cases h
    rfl
  rw [hentry, hcum] at h
  split at h <;> try exact Except.noConfusion h
  rename_i c1 h1
  split at h <;> try exact Except.noConfusion h
  rename_i cv h2
  split at h <;> try exact Except.noConfusion h
  rename_i e1 h3
  split at h <;> try exact Except.noConfusion h
  rename_i ev h4
  obtain ⟨-, rfl⟩ := checked_mul_u128_eq_some.mp h1
  obtain ⟨-, rfl⟩ := checked_div_nat_eq_some.mp h2
  injection h3 with h3
  subst h3
  rw [h2] at h4
  injection h4 with h4
  subst h4
  split at h
  rename_i gross is_profit hpair
  have hgz : gross = 0 ∧ is_profit = true := by
    split at hpair <;>
    · rw [if_pos (le_refl _)] at hpair
      injection hpair with h5 h6
      exact ⟨by omega, h6.symm⟩
  obtain ⟨rfl, rfl⟩ := hgz
  split at h <;> try exact Except.noConfusion h
  rename_i g hg
  obtain ⟨-, rfl⟩ := u64_try_from_eq_some.mp hg
  rw [if_pos rfl] at h
  cases h
  rfl

/-! ## Inversion of the instruction handlers -/

/-- Inversion of `open_position`'s input gating. -/
theorem open_validate_ok {s : State} {pid dsize deprice coll cp : Nat} {u : Unit}
    (h : open_validate s pid dsize deprice coll cp = Except.ok u) :
    s.config.is_paused = false ∧ s.market.is_paused = false ∧
      s.pool.is_paused = false ∧ pid = s.trader.position_count ∧
      MIN_COLLATERAL ≤ coll ∧ coll ≤ MAX_COLLATERAL ∧ 0 < dsize ∧
      0 < deprice ∧ deprice ≤ MAX_SAFE_PRICE ∧
      coll ≤ s.trader_balance.available_balance ∧
      0 < cp ∧ cp ≤ MAX_SAFE_PRICE := by
  unfold open_validate at h
  split at h
  · exact Except.noConfusion h
  split at h
  · exact Except.noConfusion h
  split at h
  · exact Except.noConfusion h
  split at h
  · exact Except.noConfusion h
  rename_i hq1 hq2 hq3 hpid
  rw [Bool.not_eq_true] at hq1 hq2 hq3
  rw [not_not] at hpid
  split at h <;> try exact Except.noConfusion h
  rename_i u1 hval1
  split at h <;> try exact Except.noConfusion h
  rename_i u2 hval2
  split at h <;> try exact Except.noConfusion h
  rename_i u3 hval3
  split at h
  · exact Except.noConfusion h
  rename_i hbal
  rw [not_lt] at hbal
  obtain ⟨hc1, hc2⟩ := validate_collateral_ok hval1
  have hds := validate_position_size_ok hval2
  obtain ⟨hd1, hd2⟩ := validate_price_ok hval3
  obtain ⟨hp1, hp2⟩ := validate_price_ok h
  exact ⟨hq1, hq2, hq3, hpid, hc1, hc2, hds, hd1, hd2, hbal, hp1, hp2⟩

/-- Inversion of the opening-fee / effective-collateral stage. -/
theorem open_fee_and_collateral_ok {coll bps fee eff : Nat}
    (h : open_fee_and_collateral coll bps = Except.ok (fee, eff)) :
    scaled_bps_fee coll bps = Except.ok fee ∧ 0 < fee ∧ fee ≤ coll ∧
      eff = coll - fee ∧ MIN_COLLATERAL / 2 ≤ eff := by
  unfold open_fee_and_collateral at h
  split at h <;> try exact Except.noConfusion h
  rename_i fee0 hfee
  split at h
  · exact Except.noConfusion h
  rename_i hfp
  rw [not_not] at hfp
  split at h <;> try exact Except.noConfusion h
  rename_i eff0 heff
  split at h
  · exact Except.noConfusion h
  rename_i hmin
  rw [not_not] at hmin
  obtain ⟨hfc, rfl⟩ := checked_sub_nat_eq_some.mp heff
  injection h with h1
  injection h1 with h1 h2
  subst h1
  subst h2
  exact ⟨hfee, hfp, hfc, rfl, hmin⟩

/-- Inversion of the sizing / validation stage of `open_position`. -/
theorem open_sizing_ok {s : State} {deprice dsize cp tp eff : Nat}
    {lng : Bool} {params : PositionParams} {borrow : Nat}
    (h : open_sizing s deprice dsize cp tp eff lng = Except.ok (params, borrow)) :
    (if lng then
      calculate_long_position deprice dsize cp tp eff s.market.decimals
    else
      calculate_short_position deprice dsize cp tp eff s.market.decimals) =
        Except.ok params ∧
      MIN_POSITION_VALUE ≤ params.position_value ∧
      params.position_value ≤ MAX_POSITION_VALUE ∧
      0 < params.actual_size ∧
      params.leverage_bps ≤ s.config.max_leverage ∧
      eff ≤ params.position_value ∧
      borrow = params.position_value - eff ∧
      borrow ≤ s.pool.available_liquidity := by
  unfold open_sizing at h
  split at h <;> try exact Except.noConfusion h
  rename_i params0 hparams
  split at h <;> try exact Except.noConfusion h
  rename_i u1 hval1
  split at h <;> try exact Except.noConfusion h
  rename_i u2 hval2
  split at h
  · exact Except.noConfusion h
  rename_i hlev
  rw [not_not] at hlev
  split at h <;> try exact Except.noConfusion h
  rename_i borrow0 hborrow
  split at h
  · exact Except.noConfusion h
  rename_i hliq
  rw [not_lt] at hliq
  obtain ⟨hble, rfl⟩ := checked_sub_nat_eq_some.mp hborrow
  injection h with h1
  injection h1 with h1 h2
  subst h1
  subst h2
  obtain ⟨hpv1, hpv2⟩ := validate_position_value_ok hval1
  have has := validate_position_size_ok hval2
  exact ⟨hparams, hpv1, hpv2, has, hlev, hble, rfl, hliq⟩

/-- Inversion of the mutation block of `open_position`: the committed
records and the created position, field by field. -/
theorem open_apply_ok {s : State} {owner : Nat} {tm pr : String}
    {pid dsize deprice : Nat} {lng : Bool}
    {cp slot fee eff borrow pf lf : Nat} {params : PositionParams}
    {s' : State} {pos : Position}
    (h : open_apply s owner tm pr pid dsize deprice lng cp slot fee eff
      borrow pf lf params = Except.ok (s', pos)) :
    s' = { s with
           pool := { s.pool with
                     accumulated_fees := s.pool.accumulated_fees + pf,
                     accumulated_lp_fees := s.pool.accumulated_lp_fees + lf,
                     trader_collateral := s.pool.trader_collateral + eff,
                     total_borrowed := s.pool.total_borrowed + borrow },
           trader_balance := { s.trader_balance with
                               balance := s.trader_balance.balance - fee,
                               locked_balance :=
                                 s.trader_balance.locked_balance + eff },
           trader := { s.trader with
                       position_count := s.trader.position_count + 1,
                       active_position := s.trader.active_position + 1 },
           market := { s.market with
                       total_active_positions :=
                         s.market.total_active_positions + 1 } } ∧
      pos = { bump := 0, owner, entered_at := slot, closed_at := 0,
              last_funding_slot := slot, cumulative_funding_paid := 0,
              position_id := pid, is_long := lng, pair := pr, token_mint := tm,
              current_target_price := params.target_price,
              desired_size := dsize, desired_entry_price := deprice,
              actual_entered_price := cp, collateral := eff,
              actual_size := params.actual_size, current_price := cp,
              position_value := params.position_value,
              leverage := params.leverage_bps, last_updated := slot } := by
  unfold open_apply at h
  split at h <;> try exact Except.noConfusion h
  rename_i v1 hv1
  split at h <;> try exact Except.noConfusion h
  rename_i v2 hv2
  split at h <;> try exact Except.noConfusion h
  rename_i v3 hv3
  split at h <;> try exact Except.noConfusion h
  rename_i v4 hv4
  split at h <;> try exact Except.noConfusion h
  rename_i v5 hv5
  split at h <;> try exact Except.noConfusion h
  rename_i v6 hv6
  split at h <;> try exact Except.noConfusion h
  rename_i v7 hv7
  split at h <;> try exact Except.noConfusion h
  rename_i v8 hv8
  split at h <;> try exact Except.noConfusion h
  rename_i v9 hv9
  obtain ⟨-, rfl⟩ := checked_add_u64_eq_some.mp hv1
  obtain ⟨-, rfl⟩ := checked_add_u64_eq_some.mp hv2
  obtain ⟨-, rfl⟩ := checked_sub_nat_eq_some.mp hv3
  obtain ⟨-, rfl⟩ := checked_add_u64_eq_some.mp hv4
  obtain ⟨-, rfl⟩ := checked_add_u64_eq_some.mp hv5
  obtain ⟨-, rfl⟩ := checked_add_u64_eq_some.mp hv6
  obtain ⟨-, rfl⟩ := checked_add_u64_eq_some.mp hv7
  obtain ⟨-, rfl⟩ := checked_add_u64_eq_some.mp hv8
  obtain ⟨-, rfl⟩ := checked_add_u64_eq_some.mp hv9
  injection h with h1
  injection h1 with h1 h2
  exact ⟨h1.symm, h2.symm⟩

/-- Success characterization of `open_position`: names every intermediate
value (`fee`, target, sizing parameters, fee split) and gives the exact
contents of the committed records and of the created `Position`. -/
theorem open_position_ok {s : State} {owner : Nat} {tm pr : String}
    {pid dsize deprice coll : Nat} {lng : Bool} {cp slot : Nat}
    {s' : State} {pos : Position}
    (h : open_position s owner tm pr pid dsize deprice coll lng cp slot =
      Except.ok (s', pos)) :
    ∃ fee tp params protocol_fee lp_fee,
      scaled_bps_fee coll s.config.opening_fee = Except.ok fee ∧
      0 < fee ∧ fee ≤ coll ∧
      MIN_COLLATERAL ≤ coll ∧ coll ≤ MAX_COLLATERAL ∧
      coll ≤ s.trader_balance.available_balance ∧
      0 < cp ∧ cp ≤ MAX_SAFE_PRICE ∧
      MIN_COLLATERAL / 2 ≤ coll - fee ∧
      open_target_price lng cp = Except.ok tp ∧
      (if lng then
        calculate_long_position deprice dsize cp tp (coll - fee) s.market.decimals
      else
        calculate_short_position deprice dsize cp tp (coll - fee) s.market.decimals) =
        Except.ok params ∧
      0 < params.actual_size ∧
      MIN_POSITION_VALUE ≤ params.position_value ∧
      params.leverage_bps ≤ s.config.max_leverage ∧
      coll - fee ≤ params.position_value ∧
      params.position_value - (coll - fee) ≤ s.pool.available_liquidity ∧
      split_protocol_fee fee s.config.protocol_fee_share =
        Except.ok (protocol_fee, lp_fee) ∧
      s' = { s with
             pool := { s.pool with
                       accumulated_fees := s.pool.accumulated_fees + protocol_fee,
                       accumulated_lp_fees := s.pool.accumulated_lp_fees + lp_fee,
                       trader_collateral := s.pool.trader_collateral + (coll - fee),
                       total_borrowed :=
                         s.pool.total_borrowed + (params.position_value - (coll - fee)) },
             trader_balance := { s.trader_balance with
                                 balance := s.trader_balance.balance - fee,
                                 locked_balance :=
                                   s.trader_balance.locked_balance + (coll - fee) },
             trader := { s.trader with
                         position_count := s.trader.position_count + 1,
                         active_position := s.trader.active_position + 1 },
             market := { s.market with
                         total_active_positions :=
                           s.market.total_active_positions + 1 } } ∧
      pos = { bump := 0, owner, entered_at := slot, closed_at := 0,
              last_funding_slot := slot, cumulative_funding_paid := 0,
              position_id := pid, is_long := lng, pair := pr, token_mint := tm,
              current_target_price := params.target_price,
              desired_size := dsize, desired_entry_price := deprice,
              actual_entered_price := cp, collateral := coll - fee,
              actual_size := params.actual_size, current_price := cp,
              position_value := params.position_value,
              leverage := params.leverage_bps, last_updated := slot } := by
  unfold open_position at h
  split at h <;> try exact Except.noConfusion h
  rename_i u hval
  split at h <;> try exact Except.noConfusion h
  rename_i fee eff hfee_eff
  split at h <;> try exact Except.noConfusion h
  rename_i tp htp
  split at h <;> try exact Except.noConfusion h
  rename_i params borrow hsizing
  split at h <;> try exact Except.noConfusion h
  rename_i pf lf hsplit
  obtain ⟨-, -, -, -, hc1, hc2, -, -, -, hbal, hp1, hp2⟩ := open_validate_ok hval
  obtain ⟨hsf, hfp, hfc, rfl, hmin⟩ := open_fee_and_collateral_ok hfee_eff
  obtain ⟨hparams, hpv1, -, has, hlev, hple, rfl, hliq⟩ := open_sizing_ok hsizing
  obtain ⟨rfl, rfl⟩ := open_apply_ok h
  exact ⟨fee, tp, params, pf, lf, hsf, hfp, hfc, hc1, hc2, hbal, hp1, hp2, hmin,
    htp, hparams, has, hpv1, hlev, hple, hliq, hsplit, rfl, rfl⟩


/-- Inversion of `close_position`'s input gating. -/
theorem close_validate_ok {s : State} {position : Position} {cp : Nat} {u : Unit}
    (h : close_validate s position cp = Except.ok u) :
    position.closed_at = 0 ∧ s.config.is_paused = false ∧
      s.market.is_paused = false ∧ s.pool.is_paused = false ∧
      0 < cp ∧ cp ≤ MAX_SAFE_PRICE := by
  unfold close_validate at h
  split at h
  · exact Except.noConfusion h
  split at h
  · exact Except.noConfusion h
  split at h
  · exact Except.noConfusion h
  split at h
  · exact Except.noConfusion h
  rename_i hclosed hq1 hq2 hq3
  rw [not_not] at hclosed
  rw [Bool.not_eq_true] at hq1 hq2 hq3
  obtain ⟨hp1, hp2⟩ := validate_price_ok h
  exact ⟨hclosed, hq1, hq2, hq3, hp1, hp2⟩

/-- Inversion of the payout computation (lib.rs lines 514-536).  In the
loss branch the truncated `Nat` subtraction subsumes the explicit zero
clamp of the source: when `net_pnl + closing_fee ≥ collateral` both compute
zero. -/
theorem close_amount_to_return_ok {pnl : PnLResult} {coll cf amt : Nat}
    (h : close_amount_to_return pnl coll cf = Except.ok amt) :
    (pnl.is_profit = true → amt = coll + (pnl.net_pnl - cf)) ∧
      (pnl.is_profit = false → amt = coll - (pnl.net_pnl + cf)) := by
  unfold close_amount_to_return at h
  split at h
  · rename_i hprofit
    split at h <;> try exact Except.noConfusion h
    rename_i v hv
    obtain ⟨-, rfl⟩ := checked_add_u64_eq_some.mp hv
    injection h with h1
    subst h1
    exact ⟨fun _ => rfl, fun hc => absurd hprofit (by simp [hc])⟩
  · rename_i hprofit
    rw [Bool.not_eq_true] at hprofit
    split at h <;> try exact Except.noConfusion h
    rename_i td htd
    obtain ⟨-, rfl⟩ := checked_add_u64_eq_some.mp htd
    split at h
    · rename_i hge
      injection h with h1
      subst h1
      refine ⟨fun hc => absurd hc (by simp [hprofit]), fun _ => ?_⟩
      omega
    · rename_i hge
      split at h <;> try exact Except.noConfusion h
      rename_i a ha
      obtain ⟨-, rfl⟩ := checked_sub_nat_eq_some.mp ha
      injection h with h1
      subst h1
      exact ⟨fun hc => absurd hc (by simp [hprofit]), fun _ => rfl⟩

/-- Inversion of the mutation block of `close_position`. -/
theorem close_apply_ok {s : State} {pos : Position}
    {slot borrowed pf lf amount : Nat} {s' : State} {pos' : Position}
    (h : close_apply s pos slot borrowed pf lf amount = Except.ok (s', pos')) :
    s' = { s with
           pool := { s.pool with
                     total_borrowed := s.pool.total_borrowed - borrowed,
                     trader_collateral := s.pool.trader_collateral - pos.collateral,
                     accumulated_fees := s.pool.accumulated_fees + pf,
                     accumulated_lp_fees := s.pool.accumulated_lp_fees + lf },
           trader_balance := { s.trader_balance with
                               locked_balance :=
                                 s.trader_balance.locked_balance - pos.collateral,
                               balance := s.trader_balance.balance + amount },
           trader := { s.trader with
                       active_position := s.trader.active_position - 1 },
           market := { s.market with
                       total_active_positions :=
                         s.market.total_active_positions - 1 } } ∧
      pos' = { pos with closed_at := slot } ∧
      s.trader_balance.balance + amount < U64_LIMIT ∧
      pos.collateral ≤ s.trader_balance.locked_balance := by
  unfold close_apply at h
  split at h <;> try exact Except.noConfusion h
  rename_i v1 hv1
  split at h <;> try exact Except.noConfusion h
  rename_i v2 hv2
  split at h <;> try exact Except.noConfusion h
  rename_i v3 hv3
  split at h <;> try exact Except.noConfusion h
  rename_i v4 hv4
  split at h <;> try exact Except.noConfusion h
  rename_i v5 hv5
  split at h <;> try exact Except.noConfusion h
  rename_i v6 hv6
  split at h <;> try exact Except.noConfusion h
  rename_i v7 hv7
  split at h <;> try exact Except.noConfusion h
  rename_i v8 hv8
  obtain ⟨-, rfl⟩ := checked_sub_nat_eq_some.mp hv1
  obtain ⟨-, rfl⟩ := checked_sub_nat_eq_some.mp hv2
  obtain ⟨-, rfl⟩ := checked_add_u64_eq_some.mp hv3
  obtain ⟨-, rfl⟩ := checked_add_u64_eq_some.mp hv4
  obtain ⟨hlock, rfl⟩ := checked_sub_nat_eq_some.mp hv5
  obtain ⟨hbal, rfl⟩ := checked_add_u64_eq_some.mp hv6
  obtain ⟨-, rfl⟩ := checked_sub_nat_eq_some.mp hv7
  obtain ⟨-, rfl⟩ := checked_sub_nat_eq_some.mp hv8
  injection h with h1
  injection h1 with h1 h2
  exact ⟨h1.symm, h2.symm, hbal, hlock⟩

/-- Success characterization of `close_position`: names the funding-updated
position, the PnL, the closing fee, the fee split, and the payout, and
gives the exact contents of the committed records. -/
theorem close_position_ok {s : State} {position : Position} {cp slot : Nat}
    {s' : State} {pos' : Position}
    (h : close_position s position cp slot = Except.ok (s', pos')) :
    ∃ posf funding pnl closing_fee protocol_fee lp_fee amount,
      position.closed_at = 0 ∧
      0 < cp ∧ cp ≤ MAX_SAFE_PRICE ∧
      position.update_funding slot cp 10 s.market.decimals =
        Except.ok (posf, funding) ∧
      calculate_pnl posf cp s.market.decimals = Except.ok pnl ∧
      scaled_bps_fee posf.position_value s.config.closing_fee =
        Except.ok closing_fee ∧
      split_protocol_fee closing_fee s.config.protocol_fee_share =
        Except.ok (protocol_fee, lp_fee) ∧
      posf.collateral ≤ posf.position_value ∧
      close_amount_to_return pnl posf.collateral closing_fee =
        Except.ok amount ∧
      s' = { s with
             pool := { s.pool with
                       total_borrowed :=
                         s.pool.total_borrowed -
                           (posf.position_value - posf.collateral),
                       trader_collateral :=
                         s.pool.trader_collateral - posf.collateral,
                       accumulated_fees := s.pool.accumulated_fees + protocol_fee,
                       accumulated_lp_fees :=
                         s.pool.accumulated_lp_fees + lp_fee },
             trader_balance := { s.trader_balance with
                                 locked_balance :=
                                   s.trader_balance.locked_balance - posf.collateral,
                                 balance := s.trader_balance.balance + amount },
             trader := { s.trader with
                         active_position := s.trader.active_position - 1 },
             market := { s.market with
                         total_active_positions :=
                           s.market.total_active_positions - 1 } } ∧
      pos' = { posf with closed_at := slot } := by
  unfold close_position at h
  split at h <;> try exact Except.noConfusion h
  rename_i u hval
  split at h <;> try exact Except.noConfusion h
  rename_i posf funding hfund
  split at h <;> try exact Except.noConfusion h
  rename_i pnl hpnl
  split at h <;> try exact Except.noConfusion h
  rename_i closing_fee hcf
  split at h <;> try exact Except.noConfusion h
  rename_i protocol_fee lp_fee hsplit
  split at h <;> try exact Except.noConfusion h
  rename_i borrowed hborrowed
  split at h <;> try exact Except.noConfusion h
  rename_i amount hamount
  obtain ⟨hclosed, -, -, -, hp1, hp2⟩ := close_validate_ok hval
  obtain ⟨hble, rfl⟩ := checked_sub_nat_eq_some.mp hborrowed
  obtain ⟨rfl, rfl, -, -⟩ := close_apply_ok h
  exact ⟨posf, funding, pnl, closing_fee, protocol_fee, lp_fee, amount,
    hclosed, hp1, hp2, hfund, hpnl, hcf, hsplit, hble, hamount, rfl, rfl⟩

/-! ## The claims -/

/-- C1.  For every core operation (`open_position`, `close_position`)
and every input on which the operation returns an error, the operation
leaves every record it touches exactly as it was before the call: under the
transaction-commit semantics (`commit_open` / `commit_close` — the runtime
persists account data only on success), a failure implies zero partial
state change; in particular a `close_position` that fails after its initial
validations (e.g. a `MathOverflow` in the closing-fee arithmetic, which
runs after the funding update) leaves the position's `last_funding_slot`
and `cumulative_funding_paid` unchanged. -/
theorem c1_failure_commits_nothing
    (s : State) (owner : Nat) (tm pr : String)
    (pid dsize deprice coll : Nat) (lng : Bool) (cp slot : Nat)
    (cs : State) (position : Position) (ccp cslot : Nat) :
    (∀ e, open_position s owner tm pr pid dsize deprice coll lng cp slot =
        Except.error e →
      commit_open s owner tm pr pid dsize deprice coll lng cp slot = s) ∧
    (∀ e, close_position cs position ccp cslot = Except.error e →
      commit_close cs position ccp cslot = (cs, position) ∧
      (commit_close cs position ccp cslot).2.last_funding_slot =
        position.last_funding_slot ∧
      (commit_close cs position ccp cslot).2.cumulative_funding_paid =
        position.cumulative_funding_paid) := by
  constructor
  · intro e he
    unfold commit_open
    rw [he]
  · intro e he
    unfold commit_close
    rw [he]
    exact ⟨rfl, rfl, rfl⟩

/-- Witness for C1: a paused-config open fails with `ProgramPaused` and
commits nothing; closing `overflow_position` under the 65535-bps closing
fee fails with `MathOverflow` in the closing-fee arithmetic — strictly
after the funding update for slot 9 has run — and the committed
`last_funding_slot` is still the pre-call 5. -/
theorem c1_witness :
    open_position paused_state 7 "" "" 0 1 1 1 true 1 1 =
      Except.error ErrorCode.ProgramPaused ∧
    commit_open paused_state 7 "" "" 0 1 1 1 true 1 1 = paused_state ∧
    close_position overflow_close_state overflow_position 1 9 =
      Except.error ErrorCode.MathOverflow ∧
    commit_close overflow_close_state overflow_position 1 9 =
      (overflow_close_state, overflow_position) ∧
    (commit_close overflow_close_state overflow_position 1 9).2.last_funding_slot = 5 := by
  have h1 : open_position paused_state 7 "" "" 0 1 1 1 true 1 1 =
      Except.error ErrorCode.ProgramPaused := by rfl
  have h2 : close_position overflow_close_state overflow_position 1 9 =
      Except.error ErrorCode.MathOverflow := by rfl
  have hc := c1_failure_commits_nothing paused_state 7 "" "" 0 1 1 1 true 1 1
    overflow_close_state overflow_position 1 9
  refine ⟨h1, hc.1 _ h1, h2, (hc.2 _ h2).1, ((hc.2 _ h2).2.1).trans rfl⟩

/-- C4.  For every fee amount below `2^64` and every
`protocol_fee_share` in `[0, 10000]`, the split used at open and at close
(`split_protocol_fee`, lib.rs lines 337-353 and 489-505) succeeds with
`protocol_fee = fee * share / 10000` (truncated) and
`protocol_fee + lp_fee = fee` exactly. -/
theorem c4_fee_split_exact (fee share : Nat) (hfee : fee < U64_LIMIT)
    (hshare : share ≤ 10000) :
    split_protocol_fee fee share =
      Except.ok (fee * share / 10000, fee - fee * share / 10000) ∧
    fee * share / 10000 + (fee - fee * share / 10000) = fee := by
  have hmono : fee * share ≤ fee * 10000 := Nat.mul_le_mul_left fee hshare
  have h64 : fee < 18446744073709551616 := by
    have : U64_LIMIT = 18446744073709551616 := by norm_num [U64_LIMIT]
    omega
  have hb1 : fee * share < U128_LIMIT := by
    have : U128_LIMIT = 340282366920938463463374607431768211456 := by
      norm_num [U128_LIMIT]
    omega
  have hb2 : fee * share * PRECISION < U128_LIMIT := by
    have h1 : U128_LIMIT = 340282366920938463463374607431768211456 := by
      norm_num [U128_LIMIT]
    have h2 : PRECISION = 1000000 := rfl
    rw [h2]
    omega
  have hdle : fee * share / 10000 ≤ fee := by
    have h1 : fee * share / 10000 ≤ fee * 10000 / 10000 :=
      Nat.div_le_div_right hmono
    rwa [Nat.mul_div_cancel fee (by norm_num)] at h1
  have e1 : checked_mul_u128 fee share = some (fee * share) := by
    unfold checked_mul_u128
    rw [if_pos hb1]
  have e2 : checked_mul_u128 (fee * share) PRECISION =
      some (fee * share * PRECISION) := by
    unfold checked_mul_u128
    rw [if_pos hb2]
  have e3 : checked_div_nat (fee * share * PRECISION) BASIS_POINTS =
      some (fee * share * PRECISION / BASIS_POINTS) := by
    unfold checked_div_nat
    rw [if_neg (by norm_num [BASIS_POINTS])]
  have e4 : checked_div_nat (fee * share * PRECISION / BASIS_POINTS) PRECISION =
      some (fee * share * PRECISION / BASIS_POINTS / PRECISION) := by
    unfold checked_div_nat
    rw [if_neg (by norm_num [PRECISION])]
  have hval : fee * share * PRECISION / BASIS_POINTS / PRECISION =
      fee * share / 10000 := prec_div_div (fee * share) BASIS_POINTS
  have e5 : u64_try_from (fee * share * PRECISION / BASIS_POINTS / PRECISION) =
      some (fee * share / 10000) := by
    unfold u64_try_from
    rw [hval, if_pos (by omega)]
  have e6 : checked_sub_nat fee (fee * share / 10000) =
      some (fee - fee * share / 10000) := by
    unfold checked_sub_nat
    rw [if_pos hdle]
  refine ⟨?_, by omega⟩
  unfold split_protocol_fee scaled_bps_fee
  simp only [e1, e2, e3, e4, e5, e6]

/-- Witness for C4: a 1000000-unit fee split at 50% protocol share gives
500000 + 500000 = 1000000. -/
theorem c4_witness :
    split_protocol_fee 1000000 5000 = Except.ok (500000, 500000) ∧
    (500000 : Nat) + 500000 = 1000000 := by
  have h := c4_fee_split_exact 1000000 5000 (by norm_num [U64_LIMIT]) (by norm_num)
  exact ⟨h.1, by norm_num⟩

/-- C5.  The price-ordering gates of the sizing functions
(state/position.rs lines 206-215 and 309-322): a long is rejected with
`InvalidPriceForLong` unless `current_price > desired_entry_price` and
(that holding) with `InvalidTargetPrice` unless
`target_price > current_price`; a short is rejected with
`InvalidPriceForShort` unless `current_price < desired_entry_price` and
(that holding) with `InvalidTargetPrice` unless
`target_price < desired_entry_price`.  Consequently every accepted long
satisfies `target_price > current_price > desired_entry_price` and every
accepted short satisfies
`desired_entry_price > current_price > target_price`. -/
theorem c5_price_ordering_gates :
    (∀ e d c t coll dec, ¬ (c > e) →
      calculate_long_position e d c t coll dec =
        Except.error ErrorCode.InvalidPriceForLong) ∧
    (∀ e d c t coll dec, c > e → ¬ (t > c) →
      calculate_long_position e d c t coll dec =
        Except.error ErrorCode.InvalidTargetPrice) ∧
    (∀ e d c t coll dec params,
      calculate_long_position e d c t coll dec = Except.ok params →
      t > c ∧ c > e) ∧
    (∀ e d c t coll dec, ¬ (c < e) →
      calculate_short_position e d c t coll dec =
        Except.error ErrorCode.InvalidPriceForShort) ∧
    (∀ e d c t coll dec, c < e → ¬ (t < e) →
      calculate_short_position e d c t coll dec =
        Except.error ErrorCode.InvalidTargetPrice) ∧
    (∀ e d c t coll dec params,
      calculate_short_position e d c t coll dec = Except.ok params →
      e > c ∧ c > t) := by
  refine ⟨?_, ?_, ?_, ?_, ?_, ?_⟩
  · intro e d c t coll dec hne
    unfold calculate_long_position
    rw [if_pos hne]
  · intro e d c t coll dec hce hnt
    unfold calculate_long_position
    rw [if_neg (not_not_intro hce), if_pos hnt]
  · intro e d c t coll dec params h
    obtain ⟨h1, h2, -⟩ := calculate_long_position_ok h
    exact ⟨h2, h1⟩
  · intro e d c t coll dec hne
    unfold calculate_short_position
    rw [if_pos hne]
  · intro e d c t coll dec hce hnt
    unfold calculate_short_position
    rw [if_neg (not_not_intro hce), if_pos hnt]
  · intro e d c t coll dec params h
    obtain ⟨h1, h2, -⟩ := calculate_short_position_ok h
    exact ⟨h1, h2⟩

/-- Witness for C5: each gate fires at a concrete violating input, and the
spec's §8 long scenario plus a concrete short are accepted with the stated
orderings. -/
theorem c5_witness :
    calculate_long_position 5 1 4 10 1 0 =
      Except.error ErrorCode.InvalidPriceForLong ∧
    calculate_long_position 3 1 4 4 1 0 =
      Except.error ErrorCode.InvalidTargetPrice ∧
    ((55 : Nat) > 50 ∧ (50 : Nat) > 49) ∧
    calculate_short_position 5 1 6 1 1 0 =
      Except.error ErrorCode.InvalidPriceForShort ∧
    calculate_short_position 5 1 4 7 1 0 =
      Except.error ErrorCode.InvalidTargetPrice ∧
    ((49 : Nat) > 40 ∧ (40 : Nat) > 36) := by
  refine ⟨c5_price_ordering_gates.1 5 1 4 10 1 0 (by omega),
    c5_price_ordering_gates.2.1 3 1 4 4 1 0 (by omega) (by omega),
    c5_price_ordering_gates.2.2.1 49 100 50 55 10 0 ⟨120, 6000000, 6000, 55⟩ (by rfl),
    c5_price_ordering_gates.2.2.2.1 5 1 6 1 1 0 (by omega),
    c5_price_ordering_gates.2.2.2.2.1 5 1 4 7 1 0 (by omega) (by omega),
    c5_price_ordering_gates.2.2.2.2.2 49 100 40 36 10 0 ⟨325, 13000000, 13000, 36⟩ (by rfl)⟩

/-- C6.  The derived target price at open is
`current_price * 110 / 100` (long) and `current_price * 90 / 100` (short),
truncated; the accepted `actual_size` equals
`desired_size * |target − desired_entry| / |target − current|` truncated
into 64 bits; `InvalidInput` fires when `desired_size = 0` or
`collateral = 0`; and a zero denominator `|target − current|` (reachable in
the short path, where only `target < desired_entry` is required) fires
`InvalidTargetPrice`. -/
theorem c6_target_and_size_formulas :
    (∀ c t, open_target_price true c = Except.ok t → t = c * 110 / 100) ∧
    (∀ c t, open_target_price false c = Except.ok t → t = c * 90 / 100) ∧
    (∀ e d c t coll dec params,
      calculate_long_position e d c t coll dec = Except.ok params →
      params.actual_size = d * (t - e) / (t - c) ∧
        params.actual_size < U64_LIMIT) ∧
    (∀ e d c t coll dec params,
      calculate_short_position e d c t coll dec = Except.ok params →
      params.actual_size = d * (e - t) / (c - t) ∧
        params.actual_size < U64_LIMIT) ∧
    (∀ e d c t coll dec, c > e → t > c → (d = 0 ∨ coll = 0) →
      calculate_long_position e d c t coll dec =
        Except.error ErrorCode.InvalidInput) ∧
    (∀ e d c t coll dec, c < e → t < e → (d = 0 ∨ coll = 0) →
      calculate_short_position e d c t coll dec =
        Except.error ErrorCode.InvalidInput) ∧
    (∀ e d c coll dec, c < e → d ≠ 0 → coll ≠ 0 →
      calculate_short_position e d c c coll dec =
        Except.error ErrorCode.InvalidTargetPrice) := by
  refine ⟨?_, ?_, ?_, ?_, ?_, ?_, ?_⟩
  · intro c t h
    exact open_target_price_long_ok h
  · intro c t h
    exact open_target_price_short_ok h
  · intro e d c t coll dec params h
    obtain ⟨-, -, -, -, h1, h2, -⟩ := calculate_long_position_ok h
    exact ⟨h1, h2⟩
  · intro e d c t coll dec params h
    obtain ⟨-, -, -, -, h1, h2, -⟩ := calculate_short_position_ok h
    exact ⟨h1, h2⟩
  · intro e d c t coll dec hce hct hz
    unfold calculate_long_position
    rw [if_neg (not_not_intro hce), if_neg (not_not_intro hct), if_pos hz]
  · intro e d c t coll dec hce hte hz
    unfold calculate_short_position
    rw [if_neg (not_not_intro hce), if_neg (not_not_intro hte), if_pos hz]
  · intro e d c coll dec hce hd hc
    unfold calculate_short_position
    rw [if_neg (not_not_intro hce), if_neg (not_not_intro hce),
      if_neg (by tauto)]
    have e1 : checked_sub_nat e c = some (e - c) := by
      unfold checked_sub_nat
      rw [if_pos (le_of_lt hce)]
    have e2 : checked_sub_nat c c = some 0 := by
      unfold checked_sub_nat
      rw [if_pos (le_refl c), Nat.sub_self]
    simp only [e1, e2, if_true]

/-- Witness for C6 at concrete inputs: the §8 long target and size, a short
target and size, the `InvalidInput` rejections, and the zero-denominator
short rejection. -/
theorem c6_witness :
    (55000000 : Nat) = 50000000 * 110 / 100 ∧
    (45000000 : Nat) = 50000000 * 90 / 100 ∧
    (120 : Nat) = 100 * (55 - 49) / (55 - 50) ∧
    (325 : Nat) = 100 * (49 - 36) / (40 - 36) ∧
    calculate_long_position 49 0 50 55 10 0 =
      Except.error ErrorCode.InvalidInput ∧
    calculate_short_position 49 100 40 36 0 0 =
      Except.error ErrorCode.InvalidInput ∧
    calculate_short_position 49 100 40 40 10 0 =
      Except.error ErrorCode.InvalidTargetPrice := by
  refine ⟨?_, ?_, ?_, ?_, ?_, ?_, ?_⟩
  · exact c6_target_and_size_formulas.1 50000000 55000000 (by rfl)
  · exact c6_target_and_size_formulas.2.1 50000000 45000000 (by rfl)
  · exact (c6_target_and_size_formulas.2.2.1 49 100 50 55 10 0
      ⟨120, 6000000, 6000, 55⟩ (by rfl)).1
  · exact (c6_target_and_size_formulas.2.2.2.1 49 100 40 36 10 0
      ⟨325, 13000000, 13000, 36⟩ (by rfl)).1
  · exact c6_target_and_size_formulas.2.2.2.2.1 49 0 50 55 10 0
      (by omega) (by omega) (Or.inl rfl)
  · exact c6_target_and_size_formulas.2.2.2.2.2.1 49 100 40 36 0 0
      (by omega) (by omega) (Or.inr rfl)
  · exact c6_target_and_size_formulas.2.2.2.2.2.2 49 100 40 10 0
      (by omega) (by omega) (by omega)

/-- C7.  In `calculate_funding_payment`, when any of size, price, rate, or
elapsed slots is zero the amount is zero with the direction flag equal to
`rate > 0`; otherwise the amount is the scaled product
`(size * price * P / 10^decimals) * |rate| * (elapsed * P / TICKS_PER_8H) /
(10000 * P²)` with truncation from the scaled intermediates.  In
`update_funding`, a positive rate adds the amount to
`cumulative_funding_paid` (checked) and a negative rate subtracts it with
saturation at zero. -/
theorem c7_funding_payment :
    (∀ s p (r : Int) el d, (s = 0 ∨ p = 0 ∨ r = 0 ∨ el = 0) →
      calculate_funding_payment s p r el d =
        Except.ok { funding_amount := 0, is_payment := decide (0 < r) }) ∧
    (∀ s p (r : Int) el d f, s ≠ 0 → p ≠ 0 → r ≠ 0 → el ≠ 0 →
      calculate_funding_payment s p r el d = Except.ok f →
      f.funding_amount =
        s * p * PRECISION / 10 ^ d * r.natAbs *
          (el * PRECISION / SLOTS_PER_8_HOURS) /
          (BASIS_POINTS * PRECISION * PRECISION) ∧
      f.is_payment = decide (0 < r)) ∧
    (∀ (pos : Position) slot price (r : Int) d pos' f, 0 < r →
      pos.update_funding slot price r d = Except.ok (pos', f) →
      pos'.cumulative_funding_paid =
        pos.cumulative_funding_paid + f.funding_amount) ∧
    (∀ (pos : Position) slot price (r : Int) d pos' f, r < 0 →
      pos.update_funding slot price r d = Except.ok (pos', f) →
      pos'.cumulative_funding_paid =
        pos.cumulative_funding_paid - f.funding_amount) := by
  refine ⟨?_, ?_, ?_, ?_⟩
  · intro s p r el d hz
    exact calculate_funding_payment_zero hz
  · intro s p r el d f hs hp hr hel h
    obtain ⟨hflag, hval⟩ := calculate_funding_payment_ok h
    exact ⟨hval hs hp hr hel, hflag⟩
  · intro pos slot price r d pos' f hr h
    obtain ⟨hcalc, hpay, -⟩ := update_funding_ok h
    obtain ⟨hflag, -⟩ := calculate_funding_payment_ok hcalc
    have htrue : f.is_payment = true := by
      rw [hflag]
      simp [hr]
    obtain ⟨-, rfl⟩ := hpay htrue
    rfl
  · intro pos slot price r d pos' f hr h
    obtain ⟨hcalc, -, hnopay⟩ := update_funding_ok h
    obtain ⟨hflag, -⟩ := calculate_funding_payment_ok hcalc
    have hfalse : f.is_payment = false := by
      rw [hflag]
      simp only [decide_eq_false_iff_not]
      omega
    rw [hnopay hfalse]

/-- Witness for C7: a zero-size call with a negative rate returns amount 0
and flag `false`; a 1-token position at unit scaled price over one full
8-hour period at +10 bps yields 1000000000; updating `funding_position`
(5 already paid) adds it; at −10 bps the subtraction saturates to zero. -/
theorem c7_witness :
    calculate_funding_payment 0 5 (-3) 7 6 =
      Except.ok { funding_amount := 0, is_payment := false } ∧
    (1000000000 : Nat) =
      1000000 * 1000000 * PRECISION / 10 ^ 0 * (10 : Int).natAbs *
        (72000 * PRECISION / SLOTS_PER_8_HOURS) /
        (BASIS_POINTS * PRECISION * PRECISION) ∧
    ({ funding_position with
        last_funding_slot := 72000,
        cumulative_funding_paid := 1000000005 } : Position).cumulative_funding_paid =
      funding_position.cumulative_funding_paid + 1000000000 ∧
    ({ funding_position with
        last_funding_slot := 72000,
        cumulative_funding_paid := 0 } : Position).cumulative_funding_paid =
      funding_position.cumulative_funding_paid - 1000000000 := by
  refine ⟨?_, ?_, ?_, ?_⟩
  · exact c7_funding_payment.1 0 5 (-3) 7 6 (Or.inl rfl)
  · exact (c7_funding_payment.2.1 1000000 1000000 10 72000 0
      { funding_amount := 1000000000, is_payment := true }
      (by omega) (by omega) (by omega) (by omega) (by rfl)).1
  · exact c7_funding_payment.2.2.1 funding_position 72000 1000000 10 0
      { funding_position with
        last_funding_slot := 72000,
        cumulative_funding_paid := 1000000005 }
      { funding_amount := 1000000000, is_payment := true } (by omega) (by rfl)
  · exact c7_funding_payment.2.2.2 funding_position 72000 1000000 (-10) 0
      { funding_position with
        last_funding_slot := 72000,
        cumulative_funding_paid := 0 }
      { funding_amount := 1000000000, is_payment := false } (by omega) (by rfl)

/-- C8.  Function `Position.update_funding` sets `last_funding_slot` to the
supplied slot unconditionally on success — including when the slot is
earlier than the stored watermark, where the saturating elapsed computation
yields zero, the payment is zero, and the watermark still moves backward,
so a later call re-accrues from the new, earlier watermark. -/
theorem c8_watermark_overwritten :
    (∀ (pos : Position) slot price (r : Int) d pos' f,
      pos.update_funding slot price r d = Except.ok (pos', f) →
      pos'.last_funding_slot = slot) ∧
    (∀ (pos : Position) slot price (r : Int) d,
      slot < pos.last_funding_slot →
      pos.cumulative_funding_paid < U64_LIMIT →
      pos.update_funding slot price r d =
        Except.ok ({ pos with last_funding_slot := slot },
                   { funding_amount := 0, is_payment := decide (0 < r) })) := by
  constructor
  · intro pos slot price r d pos' f h
    obtain ⟨-, hpay, hnopay⟩ := update_funding_ok h
    cases hfp : f.is_payment
    · rw [hnopay hfp]
    · rw [(hpay hfp).2]
  · intro pos slot price r d hslot hcum
    exact update_funding_stale (le_of_lt hslot) hcum

/-- Witness for C8: updating `backdated_position` (watermark 100) at slot
50 succeeds with zero funding and moves the watermark back to 50. -/
theorem c8_witness :
    Position.update_funding backdated_position 50 777 10 0 =
      Except.ok ({ backdated_position with last_funding_slot := 50 },
                 { funding_amount := 0, is_payment := true }) ∧
    ({ backdated_position with last_funding_slot := 50 } : Position).last_funding_slot = 50 := by
  have h := c8_watermark_overwritten.2 backdated_position 50 777 10 0
    (by decide) (by decide)
  refine ⟨h, ?_⟩
  exact c8_watermark_overwritten.1 backdated_position 50 777 10 0
    { backdated_position with last_funding_slot := 50 }
    { funding_amount := 0, is_payment := true } h

/-- C3.  The payout of `close_position` (lib.rs lines 514-536): on a
profit the amount returned is `collateral + (net_pnl − closing_fee)` with
the subtraction saturating at zero, so the trader never receives less than
the collateral; on a loss it is `collateral − (net_pnl + closing_fee)`
(truncated, never underflowing) and exactly `0` whenever
`net_pnl + closing_fee ≥ collateral`. -/
theorem c3_payout_formula :
    (∀ (pnl : PnLResult) coll cf amt, pnl.is_profit = true →
      close_amount_to_return pnl coll cf = Except.ok amt →
      amt = coll + (pnl.net_pnl - cf) ∧ coll ≤ amt) ∧
    (∀ (pnl : PnLResult) coll cf amt, pnl.is_profit = false →
      close_amount_to_return pnl coll cf = Except.ok amt →
      amt = coll - (pnl.net_pnl + cf) ∧
        (coll ≤ pnl.net_pnl + cf → amt = 0)) := by
  constructor
  · intro pnl coll cf amt hprofit h
    obtain ⟨hp, -⟩ := close_amount_to_return_ok h
    have := hp hprofit
    omega
  · intro pnl coll cf amt hloss h
    obtain ⟨-, hl⟩ := close_amount_to_return_ok h
    have := hl hloss
    omega

/-- Witness for C3: a profit of 5 with fee 7 on collateral 100 still pays
the full 100; a loss of 60 with fee 50 on collateral 100 pays exactly 0. -/
theorem c3_witness :
    close_amount_to_return { gross_pnl := 5, net_pnl := 5, is_profit := true }
      100 7 = Except.ok 100 ∧
    (100 : Nat) = 100 + (5 - 7) ∧
    close_amount_to_return { gross_pnl := 50, net_pnl := 60, is_profit := false }
      100 50 = Except.ok 0 ∧
    (0 : Nat) = 100 - (60 + 50) := by
  have h1 : close_amount_to_return
      { gross_pnl := 5, net_pnl := 5, is_profit := true } 100 7 =
      Except.ok 100 := by rfl
  have h2 : close_amount_to_return
      { gross_pnl := 50, net_pnl := 60, is_profit := false } 100 50 =
      Except.ok 0 := by rfl
  refine ⟨h1, ?_, h2, ?_⟩
  · exact (c3_payout_formula.1 _ 100 7 100 rfl h1).1
  · exact (c3_payout_formula.2 _ 100 50 0 rfl h2).1

/-- C9.  A successful `open_position` preserves
`locked_balance ≤ balance` on the trader's `TraderPoolDetail`: it requires
`available_balance ≥ collateral`, then decreases `balance` by exactly the
opening fee and increases `locked_balance` by exactly
`collateral − opening_fee`. -/
theorem c9_open_preserves_balance_invariant
    (s : State) (owner : Nat) (tm pr : String)
    (pid dsize deprice coll : Nat) (lng : Bool) (cp slot : Nat)
    (s' : State) (pos : Position)
    (hinv : s.trader_balance.locked_balance ≤ s.trader_balance.balance)
    (h : open_position s owner tm pr pid dsize deprice coll lng cp slot =
      Except.ok (s', pos)) :
    coll ≤ s.trader_balance.available_balance ∧
    ∃ fee, scaled_bps_fee coll s.config.opening_fee = Except.ok fee ∧
      fee ≤ coll ∧
      s'.trader_balance.balance = s.trader_balance.balance - fee ∧
      s'.trader_balance.locked_balance =
        s.trader_balance.locked_balance + (coll - fee) ∧
      s'.trader_balance.locked_balance ≤ s'.trader_balance.balance := by
  obtain ⟨fee, tp, params, pf, lf, hsf, -, hfc, -, -, hbal, -, -, -, -, -, -,
    -, -, -, -, -, rfl, -⟩ := open_position_ok h
  refine ⟨hbal, fee, hsf, hfc, rfl, rfl, ?_⟩
  unfold TraderPoolDetail.available_balance at hbal
  show s.trader_balance.locked_balance + (coll - fee) ≤
    s.trader_balance.balance - fee
  omega

/-- Witness for C9: the demo open locks 99000000 against a post-fee balance
of 99999000000, preserving the invariant. -/
theorem c9_witness :
    (100000000 : Nat) ≤ demo_state.trader_balance.available_balance ∧
    ∃ fee, scaled_bps_fee 100000000 demo_state.config.opening_fee =
        Except.ok fee ∧
      fee ≤ 100000000 ∧
      demo_open_state.trader_balance.balance =
        demo_state.trader_balance.balance - fee ∧
      demo_open_state.trader_balance.locked_balance =
        demo_state.trader_balance.locked_balance + (100000000 - fee) ∧
      demo_open_state.trader_balance.locked_balance ≤
        demo_open_state.trader_balance.balance := by
  exact c9_open_preserves_balance_invariant demo_state 7 "" "" 0 10000000
    49000000 100000000 true 50000000 3 demo_open_state demo_open_position
    (by decide) (by rfl)

/-- C10.  Handler `close_position` applies its final funding update with the
hardcoded rate of +10 bps per 8-hour period (lib.rs line 467), for every
state, market, config and oracle input: on success the closed position's
`cumulative_funding_paid` has increased by exactly the amount
`calculate_funding_payment` yields at rate 10, and the direction flag is
always position-pays, so the counter never decreases at close. -/
theorem c10_close_hardcoded_funding_rate
    (s : State) (position : Position) (cp slot : Nat)
    (s' : State) (pos' : Position)
    (h : close_position s position cp slot = Except.ok (s', pos')) :
    ∃ f, calculate_funding_payment position.actual_size cp 10
        (slot - position.last_funding_slot) s.market.decimals =
          Except.ok f ∧
      f.is_payment = true ∧
      pos'.cumulative_funding_paid =
        position.cumulative_funding_paid + f.funding_amount ∧
      position.cumulative_funding_paid ≤ pos'.cumulative_funding_paid := by
  obtain ⟨posf, funding, pnl, cfee, cpf, clf, amount, -, -, -, hfund, -, -, -,
    -, -, -, rfl⟩ := close_position_ok h
  obtain ⟨hcalc, hpay, -⟩ := update_funding_ok hfund
  obtain ⟨hflag, -⟩ := calculate_funding_payment_ok hcalc
  have htrue : funding.is_payment = true := by
    rw [hflag]
    rfl
  obtain ⟨-, rfl⟩ := hpay htrue
  exact ⟨funding, hcalc, htrue, rfl, Nat.le_add_right _ _⟩

/-- Witness for C10: closing the demo position one full funding period
after it was opened accrues exactly 600000 (10 bps of the $600 notional)
into `cumulative_funding_paid`, in the position-pays direction. -/
theorem c10_witness :
    ∃ f, calculate_funding_payment demo_open_position.actual_size 50000000 10
        (72003 - demo_open_position.last_funding_slot)
        demo_open_state.market.decimals = Except.ok f ∧
      f.is_payment = true ∧
      demo_late_close_position.cumulative_funding_paid =
        demo_open_position.cumulative_funding_paid + f.funding_amount ∧
      demo_open_position.cumulative_funding_paid ≤
        demo_late_close_position.cumulative_funding_paid := by
  exact c10_close_hardcoded_funding_rate demo_open_state demo_open_position
    50000000 72003 demo_close_state demo_late_close_position (by rfl)

/-- C2.  Opening a position and closing it immediately — same oracle
price, same slot, so no funding time elapses and gross PnL is zero —
returns `collateral − closing_fee` to the trader's balance, where
`collateral` is the position's post-opening-fee locked collateral and
`closing_fee` is the truncated `closing_fee`-bps fee on `position_value`
(the subtraction clamping at zero exactly as the total-loss branch
does). -/
theorem c2_immediate_close_round_trip
    (s : State) (owner : Nat) (tm pr : String)
    (pid dsize deprice coll : Nat) (lng : Bool) (cp slot : Nat)
    (s1 : State) (pos : Position) (s2 : State) (pos2 : Position)
    (hopen : open_position s owner tm pr pid dsize deprice coll lng cp slot =
      Except.ok (s1, pos))
    (hclose : close_position s1 pos cp slot = Except.ok (s2, pos2)) :
    s2.trader_balance.balance =
      s1.trader_balance.balance +
        (pos.collateral -
          pos.position_value * s1.config.closing_fee / BASIS_POINTS) ∧
    s2.trader_balance.locked_balance =
      s1.trader_balance.locked_balance - pos.collateral := by
  obtain ⟨fee, tp, params, pf, lf, -, -, -, -, -, -, -, -, -, -, -, -, -, -,
    -, -, -, rfl, rfl⟩ := open_position_ok hopen
  obtain ⟨posf, funding, pnl, cfee, cpf, clf, amount, -, -, -, hfund, hpnl,
    hcf, -, -, hamount, rfl, -⟩ := close_position_ok hclose
  rw [update_funding_stale (Nat.le_refl slot)
    ((by norm_num [U64_LIMIT] : (0 : Nat) < U64_LIMIT))] at hfund
  injection hfund with hfund
  injection hfund with hfund1 hfund2
  subst hfund1
  subst hfund2
  have hpnl0 := calculate_pnl_flat rfl rfl hpnl
  subst hpnl0
  have hloss := (close_amount_to_return_ok hamount).2 rfl
  subst hloss
  obtain ⟨hcfee, -, -, -⟩ := scaled_bps_fee_ok hcf
  subst hcfee
  constructor
  · show s.trader_balance.balance - fee +
      ((coll - fee) -
        (0 + params.position_value * s.config.closing_fee / BASIS_POINTS)) =
      s.trader_balance.balance - fee +
        ((coll - fee) -
          params.position_value * s.config.closing_fee / BASIS_POINTS)
    omega
  · rfl

/-- Witness for C2: the demo round trip.  Collateral 99000000, closing fee
6000000 (100 bps of the 600000000 position value): the balance grows by
exactly 93000000 and the whole collateral is unlocked. -/
theorem c2_witness :
    demo_close_state.trader_balance.balance =
      demo_open_state.trader_balance.balance +
        (demo_open_position.collateral -
          demo_open_position.position_value *
            demo_open_state.config.closing_fee / BASIS_POINTS) ∧
    demo_close_state.trader_balance.locked_balance =
      demo_open_state.trader_balance.locked_balance -
        demo_open_position.collateral := by
  exact c2_immediate_close_round_trip demo_state 7 "" "" 0 10000000 49000000
    100000000 true 50000000 3 demo_open_state demo_open_position
    demo_close_state demo_roundtrip_position (by rfl) (by rfl)

end RegretMarket
